import Mathlib

/-
Verification of the glassshadow stealth-game core against its specification.

The JavaScript sources are embedded shallowly: numeric vitals become rationals
(the game only uses small integer and half-integer values, so exact rational
arithmetic matches JS number arithmetic on them), JS `Set`/`Map` values become
lists with set/assoc semantics, `Math.max`/`Math.min` become `jsMax`/`jsMin`,
and timestamps become integers (milliseconds).  Sequential statements of the
source are embedded as composed step functions; every definition carries a doc
comment naming the source construct it embeds.
-/

/-- `Math.max` on two numbers. -/
def jsMax (a b : ℚ) : ℚ := if a ≤ b then b else a

/-- `Math.min` on two numbers. -/
def jsMin (a b : ℚ) : ℚ := if a ≤ b then a else b

theorem jsMax_eq_max (a b : ℚ) : jsMax a b = max a b := by
  unfold jsMax
  split
  · exact (max_eq_right (by assumption)).symm
  · exact (max_eq_left (le_of_not_le (by assumption))).symm

theorem jsMin_eq_min (a b : ℚ) : jsMin a b = min a b := by
  unfold jsMin
  split
  · exact (min_eq_left (by assumption)).symm
  · exact (min_eq_right (le_of_not_le (by assumption))).symm

/-- NPC awareness levels, from `NPC_AWARENESS` in src/core/constants.js. -/
inductive Awareness where
  | unaware
  | suspicious
  | alert
  | hostile
  | allied
  | neutral
  deriving DecidableEq, Repr

/-- Small fragment of the JavaScript value universe, enough to model dynamic
property reads (`this[vital]`, which may yield a number, an object such as the
conditions `Set`, or `undefined`) and the identity comparison performed by
`Array.prototype.includes`. -/
inductive JsValue where
  | num (q : ℚ)
  | str (s : String)
  | obj (tag : String)
  | undefVal
  deriving DecidableEq, Repr

/-- JS `Set.delete`: remove an element from a set modelled as a duplicate-free
list in insertion order. -/
def setDelete (s : List String) (x : String) : List String :=
  s.filter (fun y => y ≠ x)

/-- JS `Set.add`: append an element if it is not already present. -/
def setAdd (s : List String) (x : String) : List String :=
  if x ∈ s then s else s ++ [x]

/-- State of a `VitalsSystem` instance (src/pillars/vitals.js, constructor).
`conditions` is the JS `Set` of condition tags in insertion order; `effects`
is the JS `Map` of timed effects, keeping only the `remaining` counter that
`tick` reads (the other effect-data fields are write-only in the source). -/
structure VitalsState where
  health : ℚ
  maxHealth : ℚ
  stamina : ℚ
  maxStamina : ℚ
  stress : ℚ
  detection : ℚ
  conditions : List String
  effects : List (String × ℚ)
  deriving DecidableEq, Repr

/-- `VITAL_THRESHOLDS.STRESS.HIGH` (src/core/constants.js). -/
def STRESS_HIGH : ℚ := 70

/-- `VITAL_THRESHOLDS.STRESS.CRITICAL` (src/core/constants.js). -/
def STRESS_CRITICAL : ℚ := 90

/-- `VITAL_THRESHOLDS.HEALTH.WOUNDED` (src/core/constants.js). -/
def HEALTH_WOUNDED : ℚ := 30

/-- `VITAL_THRESHOLDS.HEALTH.CRITICAL` (src/core/constants.js). -/
def HEALTH_CRITICAL : ℚ := 10

/-- `VITAL_THRESHOLDS.DETECTION.SUSPICIOUS` (src/core/constants.js). -/
def DETECTION_SUSPICIOUS : ℚ := 60

/-- `VITAL_THRESHOLDS.DETECTION.SPOTTED` (src/core/constants.js). -/
def DETECTION_SPOTTED : ℚ := 80

/-- Clearing of the four auto-derived tags at the top of
`VitalsSystem.updateConditions` (src/pillars/vitals.js:79). -/
def clearAuto (c : List String) : List String :=
  ["high-stress", "injured", "exhausted", "panicked"].foldl setDelete c

/-- One conditional `conditions.add` statement of `updateConditions`. -/
def condStep (cond : Prop) [Decidable cond] (tag : String) (c : List String) : List String :=
  if cond then setAdd c tag else c

/-- Body of `VitalsSystem.updateConditions` (src/pillars/vitals.js:77): clear
the four auto-derived condition tags, then re-add each whose threshold
predicate holds on the current vitals, in source order. -/
def autoConditions (v : VitalsState) : List String :=
  condStep (v.stamina < 20) "exhausted"
    (condStep (v.health < HEALTH_WOUNDED) "injured"
      (condStep (STRESS_CRITICAL < v.stress) "panicked"
        (condStep (STRESS_HIGH < v.stress) "high-stress" (clearAuto v.conditions))))

/-- `VitalsSystem.updateConditions` (src/pillars/vitals.js:77). -/
def updateConditions (v : VitalsState) : VitalsState :=
  { v with conditions := autoConditions v }

/-- Dynamic property read `this[name]` on a `VitalsSystem` instance: the six
numeric own-properties, the two object-valued own-properties, and `undefined`
for anything else. -/
def vitalsProp (v : VitalsState) (name : String) : JsValue :=
  if name = "health" then .num v.health
  else if name = "maxHealth" then .num v.maxHealth
  else if name = "stamina" then .num v.stamina
  else if name = "maxStamina" then .num v.maxStamina
  else if name = "stress" then .num v.stress
  else if name = "detection" then .num v.detection
  else if name = "conditions" then .obj "Set"
  else if name = "effects" then .obj "Map"
  else .undefVal

/-- The `switch` statement of `VitalsSystem.modifyVital`
(src/pillars/vitals.js:55): clamp the matching vital to `[0, max]`; an
unmatched name falls through with no mutation (there is no `default` case). -/
def applyVitalClamp (v : VitalsState) (vital : String) (amount : ℚ) : VitalsState :=
  if vital = "health" then { v with health := jsMax 0 (jsMin v.maxHealth (v.health + amount)) }
  else if vital = "stamina" then { v with stamina := jsMax 0 (jsMin v.maxStamina (v.stamina + amount)) }
  else if vital = "stress" then { v with stress := jsMax 0 (jsMin 100 (v.stress + amount)) }
  else if vital = "detection" then { v with detection := jsMax 0 (jsMin 100 (v.detection + amount)) }
  else v

/-- `VitalsSystem.modifyVital` (src/pillars/vitals.js:54): run the clamping
switch, recompute conditions, and return the value of `this[vital]` read on
the updated instance. -/
def modifyVital (v : VitalsState) (vital : String) (amount : ℚ) : VitalsState × JsValue :=
  (updateConditions (applyVitalClamp v vital amount),
   vitalsProp (updateConditions (applyVitalClamp v vital amount)) vital)

/-- `CONDITION_EFFECTS.injured.effects.bleedRate` (src/core/constants.js). -/
def BLEED_RATE : ℚ := 2

/-- Bleed statement of `VitalsSystem.tick` (src/pillars/vitals.js:133). -/
def tickBleed (v : VitalsState) : VitalsState :=
  if "injured" ∈ v.conditions then (modifyVital v "health" (-BLEED_RATE)).1 else v

/-- Timed-effect aging of `VitalsSystem.tick` (src/pillars/vitals.js:139):
each counter is decremented and effects reaching zero are deleted. -/
def tickEffects (v : VitalsState) : VitalsState :=
  { v with effects := (v.effects.map (fun e => (e.1, e.2 - 1))).filter (fun e => 0 < e.2) }

/-- Stress-decay statement of `VitalsSystem.tick` (src/pillars/vitals.js:147). -/
def tickStress (v : VitalsState) : VitalsState :=
  if v.detection < DETECTION_SUSPICIOUS then (modifyVital v "stress" (-1)).1 else v

/-- `VitalsSystem.tick` (src/pillars/vitals.js:131): bleed while `injured`,
age out timed effects, decay stress while detection is below the suspicious
threshold, and regenerate stamina by 0.5. -/
def vitalsTick (v : VitalsState) : VitalsState :=
  (modifyVital (tickStress (tickEffects (tickBleed v))) "stamina" (1 / 2)).1

/-- State of an `NPCVitals` instance (src/pillars/vitals.js:231): the base
vitals plus the NPC-only `awareness`, `suspicion`, `alertCooldown` fields. -/
structure NPCVitalsState extends VitalsState where
  awareness : Awareness
  suspicion : ℚ
  alertCooldown : ℚ
  deriving DecidableEq, Repr

/-- Rebuild an `NPCVitals` state after an inherited base-class method has
updated the `VitalsSystem` fields. -/
def withBase (n : NPCVitalsState) (b : VitalsState) : NPCVitalsState :=
  { n with toVitalsState := b }

/-- First escalation check of `NPCVitals.addSuspicion`
(src/pillars/vitals.js:247). -/
def escalate1 (s : ℚ) (a : Awareness) : Awareness :=
  if 30 < s ∧ a = Awareness.unaware then Awareness.suspicious else a

/-- Second escalation check of `NPCVitals.addSuspicion`
(src/pillars/vitals.js:250), run on the result of the first. -/
def escalate2 (s : ℚ) (a : Awareness) : Awareness :=
  if 70 < s ∧ a = Awareness.suspicious then Awareness.alert else a

/-- Third escalation check of `NPCVitals.addSuspicion`
(src/pillars/vitals.js:253). -/
def escalate3 (s : ℚ) (a : Awareness) : Awareness :=
  if 100 ≤ s then Awareness.hostile else a

/-- `NPCVitals.addSuspicion` (src/pillars/vitals.js:244): raise suspicion
capped at 100, then run the three sequential awareness escalation checks on
the new suspicion value. -/
def addSuspicion (n : NPCVitalsState) (amount : ℚ) : NPCVitalsState :=
  { n with suspicion := jsMin 100 (n.suspicion + amount),
           awareness := escalate3 (jsMin 100 (n.suspicion + amount))
             (escalate2 (jsMin 100 (n.suspicion + amount))
               (escalate1 (jsMin 100 (n.suspicion + amount)) n.awareness)) }

/-- `NPCVitals.decaySuspicion` (src/pillars/vitals.js:261): consume the alert
cooldown if active, otherwise lower suspicion (floored at 0) and drop the
vitals-side awareness from suspicious to unaware when suspicion falls
below 30. -/
def decaySuspicion (n : NPCVitalsState) (amount : ℚ) : NPCVitalsState :=
  if 0 < n.alertCooldown then { n with alertCooldown := n.alertCooldown - 1 }
  else
    { n with suspicion := jsMax 0 (n.suspicion - amount),
             awareness :=
               if jsMax 0 (n.suspicion - amount) < 30 ∧ n.awareness = Awareness.suspicious then
                 Awareness.unaware
               else n.awareness }

/-- `NPCVitals.canAct` (src/pillars/vitals.js:278). -/
def canAct (n : NPCVitalsState) : Bool :=
  (0 < n.health) && !(n.conditions.contains "unconscious")

/-- State of an `NPC` entity (src/entities/npc.js, constructor) restricted to
the fields the verified claims read or write.  Omitted fields — `position`,
`facing`, patrol/work/idle counters, `capabilities`, `inventory`,
`targetEntity`, `suspicionTimer` — are mutated only by the behaviour-pattern
branch of `tick` and by movement helpers, none of which touch the fields kept
here.  `jsState` models the `npc.state` property read by the engine's
detection loop: the `NPC` class never assigns it, so on a real instance it is
`undefined` (`none`).  `engagementHandled` and `alreadySpotted` are the
engine-added sticky flags `_engagementHandled` and `_alreadySpotted`. -/
structure NPCState where
  id : String
  type : String
  location : String
  vitals : NPCVitalsState
  awareness : Awareness
  engaged : Bool
  dialogueId : Option String
  behavior : String
  actionCooldown : ℚ
  jsState : Option String
  engagementHandled : Bool
  alreadySpotted : Bool
  deriving DecidableEq, Repr

/-- `NPC.updateAwareness` (src/entities/npc.js:178): re-derive the NPC's own
`awareness` field from the accumulated suspicion; the final branch lets only a
`suspicious` NPC fall back to `unaware`, and only below suspicion 10. -/
def updateAwareness (npc : NPCState) : NPCState :=
  if 100 ≤ npc.vitals.suspicion then { npc with awareness := Awareness.hostile }
  else if 70 ≤ npc.vitals.suspicion then { npc with awareness := Awareness.alert }
  else if 30 ≤ npc.vitals.suspicion then { npc with awareness := Awareness.suspicious }
  else if npc.vitals.suspicion < 10 ∧ npc.awareness = Awareness.suspicious then
    { npc with awareness := Awareness.unaware }
  else npc

/-- First statement of `NPC.tick` (src/entities/npc.js:144): decay suspicion
when the NPC is neither engaged nor hostile. -/
def npcDecayStep (npc : NPCState) : NPCState :=
  if npc.engaged = false ∧ npc.awareness ≠ Awareness.hostile then
    { npc with vitals := decaySuspicion npc.vitals 1 }
  else npc

/-- Cooldown countdown in `NPC.tick` (src/entities/npc.js:168). -/
def npcCooldownStep (npc : NPCState) : NPCState :=
  if 0 < npc.actionCooldown then { npc with actionCooldown := npc.actionCooldown - 1 } else npc

/-- Final statement of `NPC.tick` (src/entities/npc.js:172): the inherited
`VitalsSystem.tick` runs on the base fields of the NPC's vitals. -/
def npcVitalsStep (npc : NPCState) : NPCState :=
  { npc with vitals := withBase npc.vitals (vitalsTick npc.vitals.toVitalsState) }

/-- `NPC.tick` (src/entities/npc.js:140): bail out when the NPC cannot act;
decay suspicion when not engaged and not hostile; re-derive awareness; run the
behaviour pattern (which mutates only fields outside this record, see
`NPCState`); count down the action cooldown; tick the vitals. -/
def npcTick (npc : NPCState) : NPCState :=
  if canAct npc.vitals = false then npc
  else npcVitalsStep (npcCooldownStep (updateAwareness (npcDecayStep npc)))

/-- Default-constructed `VitalsSystem` (src/pillars/vitals.js:12, empty
config). -/
def vitalsDefault : VitalsState :=
  { health := 100, maxHealth := 100, stamina := 100, maxStamina := 100,
    stress := 0, detection := 0, conditions := [], effects := [] }

/-- An alert NPC-vitals record: suspicion 70, no pending alert cooldown. -/
def npcVitalsC1 : NPCVitalsState :=
  { vitalsDefault with awareness := Awareness.alert, suspicion := 70, alertCooldown := 0 }

/-- An unengaged alert NPC at suspicion 70, as produced by accumulated
detections followed by decay. -/
def npcC1 : NPCState :=
  { id := "guard-1", type := "guard", location := "server-room", vitals := npcVitalsC1,
    awareness := Awareness.alert, engaged := false, dialogueId := none,
    behavior := "stationary", actionCooldown := 0, jsState := none,
    engagementHandled := false, alreadySpotted := false }

/-- A hostile NPC with saturated suspicion. -/
def npcHostileW : NPCState :=
  { id := "guard-2", type := "guard", location := "server-room",
    vitals := { vitalsDefault with awareness := Awareness.hostile, suspicion := 100, alertCooldown := 0 },
    awareness := Awareness.hostile, engaged := true, dialogueId := none,
    behavior := "guard", actionCooldown := 0, jsState := none,
    engagementHandled := true, alreadySpotted := true }

/-- Helper: `updateConditions` changes only the `conditions` field. -/
theorem updateConditions_fields (v : VitalsState) :
    (updateConditions v).health = v.health ∧ (updateConditions v).maxHealth = v.maxHealth ∧
    (updateConditions v).stamina = v.stamina ∧ (updateConditions v).maxStamina = v.maxStamina ∧
    (updateConditions v).stress = v.stress ∧ (updateConditions v).detection = v.detection ∧
    (updateConditions v).effects = v.effects := by
  simp [updateConditions]

/-- Helper: `npcCooldownStep` preserves awareness. -/
theorem npcCooldownStep_awareness (npc : NPCState) :
    (npcCooldownStep npc).awareness = npc.awareness := by
  unfold npcCooldownStep
  split <;> rfl

/-- Helper: `npcCooldownStep` preserves the vitals. -/
theorem npcCooldownStep_vitals (npc : NPCState) :
    (npcCooldownStep npc).vitals = npc.vitals := by
  unfold npcCooldownStep
  split <;> rfl

/-- Helper: `npcVitalsStep` preserves awareness. -/
theorem npcVitalsStep_awareness (npc : NPCState) :
    (npcVitalsStep npc).awareness = npc.awareness := rfl

/-- Helper: `npcVitalsStep` preserves suspicion (the inherited vitals tick
rewrites only the base-class fields). -/
theorem npcVitalsStep_suspicion (npc : NPCState) :
    (npcVitalsStep npc).vitals.suspicion = npc.vitals.suspicion := rfl

/-- C1 counterexample: a single `NPC.tick` with no narrative action takes an
unengaged `alert` NPC at suspicion 70 to awareness `suspicious` — decay lowers
suspicion to 69 and `updateAwareness` re-derives the level — so decay alone
does revert an `alert` NPC, contrary to the claim. -/
theorem npc_alert_decays_to_suspicious_cx :
    npcC1.awareness = Awareness.alert ∧ npcC1.engaged = false ∧
    (npcTick npcC1).awareness = Awareness.suspicious := by
  refine ⟨rfl, rfl, ?_⟩
  have hact : ¬ (canAct npcC1.vitals = false) := by decide
  have h1 : decaySuspicion npcVitalsC1 1 = { npcVitalsC1 with suspicion := 69 } := by
    norm_num [decaySuspicion, npcVitalsC1, vitalsDefault, jsMax]
  have h2 : npcDecayStep npcC1 = { npcC1 with vitals := { npcVitalsC1 with suspicion := 69 } } := by
    unfold npcDecayStep
    rw [if_pos (by decide)]
    rw [show npcC1.vitals = npcVitalsC1 from rfl, h1]
  have h3 : (updateAwareness { npcC1 with vitals := { npcVitalsC1 with suspicion := 69 } }).awareness
      = Awareness.suspicious := by
    norm_num [updateAwareness, npcC1, npcVitalsC1, vitalsDefault]
  unfold npcTick
  rw [if_neg hact]
  rw [npcVitalsStep_awareness, npcCooldownStep_awareness, h2, h3]

/-- Helper: `npcTick` preserves a hostile NPC with saturated suspicion. -/
theorem npcTick_hostile_step (npc : NPCState)
    (ha : npc.awareness = Awareness.hostile) (hs : 100 ≤ npc.vitals.suspicion) :
    (npcTick npc).awareness = Awareness.hostile ∧ 100 ≤ (npcTick npc).vitals.suspicion := by
  unfold npcTick
  by_cases hact : canAct npc.vitals = false
  · rw [if_pos hact]; exact ⟨ha, hs⟩
  · rw [if_neg hact]
    have hdecay : npcDecayStep npc = npc := by
      unfold npcDecayStep
      rw [if_neg]
      intro h
      exact h.2 ha
    have hup : updateAwareness npc = { npc with awareness := Awareness.hostile } := by
      unfold updateAwareness
      rw [if_pos hs]
    rw [hdecay, hup]
    refine ⟨by rw [npcVitalsStep_awareness, npcCooldownStep_awareness], ?_⟩
    rw [npcVitalsStep_suspicion, npcCooldownStep_vitals]
    exact hs

/-- C1 amended: `NPCVitals.decaySuspicion` on its own never changes the
vitals-side awareness except from `suspicious` to `unaware`; and a `hostile`
NPC whose suspicion has reached 100 never reverts under any number of
`NPC.tick` steps (tick skips decay for hostile NPCs).  The reverting
transitions shown by the counterexample — `alert` to `suspicious` (suspicion
decayed below 70) and onward to `unaware` (below 10) — are exactly the ones
`NPC.updateAwareness` re-derives during tick. -/
theorem decay_deescalation_amended :
    (∀ (n : NPCVitalsState) (amt : ℚ),
        (decaySuspicion n amt).awareness = n.awareness ∨
        (n.awareness = Awareness.suspicious ∧
          (decaySuspicion n amt).awareness = Awareness.unaware)) ∧
    (∀ (npc : NPCState) (k : ℕ),
        npc.awareness = Awareness.hostile → 100 ≤ npc.vitals.suspicion →
        (npcTick^[k] npc).awareness = Awareness.hostile) := by
  constructor
  · intro n amt
    unfold decaySuspicion
    split
    · left; rfl
    · by_cases h : jsMax 0 (n.suspicion - amt) < 30 ∧ n.awareness = Awareness.suspicious
      · right; exact ⟨h.2, by simp [h]⟩
      · left; simp [h]
  · intro npc k
    induction k generalizing npc with
    | zero =>
      intro ha _
      simpa using ha
    | succ m ih =>
      intro ha hs
      rw [Function.iterate_succ_apply]
      exact ih _ (npcTick_hostile_step npc ha hs).1 (npcTick_hostile_step npc ha hs).2

/-- Witness for the amended C1 theorem at concrete inputs: the decay clause at
the alert vitals record, and two tick steps on a saturated hostile NPC. -/
theorem decay_deescalation_amended_witness :
    ((decaySuspicion npcVitalsC1 1).awareness = npcVitalsC1.awareness ∨
      (npcVitalsC1.awareness = Awareness.suspicious ∧
        (decaySuspicion npcVitalsC1 1).awareness = Awareness.unaware)) ∧
    (npcTick^[2] npcHostileW).awareness = Awareness.hostile :=
  ⟨decay_deescalation_amended.1 npcVitalsC1 1,
   decay_deescalation_amended.2 npcHostileW 2 rfl (by norm_num [npcHostileW, vitalsDefault])⟩

/-- Read the stored value of one of the four modifiable vitals. -/
def vitalValue (v : VitalsState) (name : String) : ℚ :=
  if name = "health" then v.health
  else if name = "stamina" then v.stamina
  else if name = "stress" then v.stress
  else if name = "detection" then v.detection
  else 0

/-- Upper clamp bound used by `modifyVital` for each of the four vitals. -/
def vitalMax (v : VitalsState) (name : String) : ℚ :=
  if name = "health" then v.maxHealth
  else if name = "stamina" then v.maxStamina
  else 100

/-- C4: for each of the four vitals and every delta, `modifyVital` leaves the
vital clamped to `[0, max]` (the function is total — there is no rejection or
exception path), and applying `+1000` then `-1000` from any starting value
lands exactly on the clamped bound 0 whenever the vital's range is contained
in `[0, 1000]` (true of all ranges the game uses, which stay within
`[0, 100]`), with the intermediate value saturating at the upper bound rather
than overflowing. -/
theorem modifyVital_clamps :
    (∀ (v : VitalsState) (name : String) (amt : ℚ),
        name ∈ ["health", "stamina", "stress", "detection"] →
        0 ≤ vitalMax v name →
        0 ≤ vitalValue (modifyVital v name amt).1 name ∧
          vitalValue (modifyVital v name amt).1 name ≤ vitalMax v name) ∧
    (∀ (v : VitalsState) (name : String),
        name ∈ ["health", "stamina", "stress", "detection"] →
        0 ≤ vitalMax v name → vitalMax v name ≤ 1000 →
        vitalValue (modifyVital (modifyVital v name 1000).1 name (-1000)).1 name = 0) := by
  have hval : ∀ (v : VitalsState) (name : String) (amt : ℚ),
      name ∈ ["health", "stamina", "stress", "detection"] →
      vitalValue (modifyVital v name amt).1 name
        = max 0 (min (vitalMax v name) (vitalValue v name + amt)) := by
    intro v name amt hmem
    simp only [List.mem_cons, List.not_mem_nil, or_false] at hmem
    rcases hmem with h | h | h | h
    all_goals subst h
    all_goals simp [modifyVital, applyVitalClamp, updateConditions, vitalValue, vitalMax,
      jsMax_eq_max, jsMin_eq_min]
  have hmaxpres : ∀ (v : VitalsState) (name : String) (amt : ℚ),
      vitalMax (modifyVital v name amt).1 name = vitalMax v name := by
    intro v name amt
    by_cases h1 : name = "health" <;> by_cases h2 : name = "stamina" <;>
      simp [modifyVital, applyVitalClamp, updateConditions, vitalMax, h1, h2]
  refine ⟨fun v name amt hmem hub => ?_, fun v name hmem hub hle => ?_⟩
  · rw [hval v name amt hmem]
    exact ⟨le_max_left _ _, max_le hub (min_le_left _ _)⟩
  · rw [hval _ name _ hmem, hmaxpres, hval v name 1000 hmem]
    set M := vitalMax v name with hM
    set x := vitalValue v name with hx
    have h1 : max 0 (min M (x + 1000)) ≤ M := max_le hub (min_le_left _ _)
    have h2 : (0 : ℚ) ≤ max 0 (min M (x + 1000)) := le_max_left _ _
    have h3 : max 0 (min M (x + 1000)) + -1000 ≤ 0 := by linarith
    have h4 : min M (max 0 (min M (x + 1000)) + -1000) = max 0 (min M (x + 1000)) + -1000 :=
      min_eq_right (by linarith)
    rw [h4]
    exact max_eq_left h3

/-- Witness for C4 at the default vitals and the `health` vital. -/
theorem modifyVital_clamps_witness :
    (0 ≤ vitalValue (modifyVital vitalsDefault "health" 55).1 "health" ∧
      vitalValue (modifyVital vitalsDefault "health" 55).1 "health" ≤ vitalMax vitalsDefault "health") ∧
    vitalValue (modifyVital (modifyVital vitalsDefault "health" 1000).1 "health" (-1000)).1 "health" = 0 :=
  ⟨modifyVital_clamps.1 vitalsDefault "health" 55 (by decide)
      (by norm_num [vitalMax, vitalsDefault]),
   modifyVital_clamps.2 vitalsDefault "health" (by decide)
      (by norm_num [vitalMax, vitalsDefault]) (by norm_num [vitalMax, vitalsDefault])⟩

/-- C10 counterexample: `modifyVital` with the out-of-range name `maxHealth`
returns `this.maxHealth` — the number 100 on a default instance, not
`undefined` — because `return this[vital]` reads whatever own-property the
argument names.  The four vitals are indeed left unchanged. -/
theorem modifyVital_maxHealth_returns_value_cx :
    "maxHealth" ∉ ["health", "stamina", "stress", "detection"] ∧
    (modifyVital vitalsDefault "maxHealth" 5).2 = JsValue.num 100 ∧
    JsValue.num 100 ≠ JsValue.undefVal ∧
    (modifyVital vitalsDefault "maxHealth" 5).1.health = vitalsDefault.health ∧
    (modifyVital vitalsDefault "maxHealth" 5).1.stamina = vitalsDefault.stamina ∧
    (modifyVital vitalsDefault "maxHealth" 5).1.stress = vitalsDefault.stress ∧
    (modifyVital vitalsDefault "maxHealth" 5).1.detection = vitalsDefault.detection := by
  refine ⟨by decide, by decide, by simp, rfl, rfl, rfl, rfl⟩

/-- C10 amended: for any vital name outside the four recognised cases the
switch matches nothing, so the four stored vitals and both maxima are
unchanged and only the derived condition set is recomputed; the returned value
is the dynamic property read `this[vital]` on the updated instance — which is
`undefined` exactly when the name is not an own-property of the vitals object
(for own-properties such as `maxHealth` it is that property's value). -/
theorem modifyVital_unknown_frame_amended :
    ∀ (v : VitalsState) (name : String) (amt : ℚ),
      name ∉ ["health", "stamina", "stress", "detection"] →
      (modifyVital v name amt).1 = updateConditions v ∧
      (modifyVital v name amt).1.health = v.health ∧
      (modifyVital v name amt).1.stamina = v.stamina ∧
      (modifyVital v name amt).1.stress = v.stress ∧
      (modifyVital v name amt).1.detection = v.detection ∧
      (modifyVital v name amt).1.maxHealth = v.maxHealth ∧
      (modifyVital v name amt).1.maxStamina = v.maxStamina ∧
      (modifyVital v name amt).2 = vitalsProp (updateConditions v) name := by
  intro v name amt hmem
  simp only [List.mem_cons, List.not_mem_nil, or_false, not_or] at hmem
  obtain ⟨h1, h2, h3, h4⟩ := hmem
  have hclamp : applyVitalClamp v name amt = v := by
    simp [applyVitalClamp, h1, h2, h3, h4]
  have hbody : modifyVital v name amt = (updateConditions v, vitalsProp (updateConditions v) name) := by
    simp [modifyVital, hclamp]
  rw [hbody]
  obtain ⟨e1, e2, e3, e4, e5, e6, _⟩ := updateConditions_fields v
  exact ⟨rfl, e1, e3, e5, e6, e2, e4, rfl⟩

/-- Witness for the amended C10 theorem at the name `mana`, which is not an
own-property, so the returned value is `undefined` there. -/
theorem modifyVital_unknown_frame_amended_witness :
    (modifyVital vitalsDefault "mana" 7).1 = updateConditions vitalsDefault ∧
    (modifyVital vitalsDefault "mana" 7).1.health = vitalsDefault.health ∧
    (modifyVital vitalsDefault "mana" 7).1.stamina = vitalsDefault.stamina ∧
    (modifyVital vitalsDefault "mana" 7).1.stress = vitalsDefault.stress ∧
    (modifyVital vitalsDefault "mana" 7).1.detection = vitalsDefault.detection ∧
    (modifyVital vitalsDefault "mana" 7).1.maxHealth = vitalsDefault.maxHealth ∧
    (modifyVital vitalsDefault "mana" 7).1.maxStamina = vitalsDefault.maxStamina ∧
    (modifyVital vitalsDefault "mana" 7).2 = vitalsProp (updateConditions vitalsDefault) "mana" :=
  modifyVital_unknown_frame_amended vitalsDefault "mana" 7 (by decide)

/-- Interaction modes, from `GAME_PHASES` in src/core/constants.js. -/
inductive Mode where
  | exploration
  | dialogue
  | combat
  | stealth
  | puzzle
  | cutscene
  deriving DecidableEq, Repr

/-- One entry of the static `MODES` table (src/unnamed/part_003:11): display
name and action whitelist.  The card-layout fields (`availableCards`,
`primaryFocus`, `cardStates`) are static UI data read by no verified claim and
are omitted here. -/
structure ModeConfig where
  name : String
  allowedActions : List String
  deriving DecidableEq, Repr

/-- The `MODES` table (src/unnamed/part_003:11). -/
def MODES : Mode → ModeConfig
  | .exploration =>
    { name := "Exploration",
      allowedActions := ["look", "examine", "listen", "search", "move", "sneak", "run", "hide",
                         "take", "use", "hack", "lockpick", "talk", "distract"] }
  | .dialogue =>
    { name := "Dialogue", allowedActions := ["talk", "persuade", "intimidate", "distract", "flee"] }
  | .combat =>
    { name := "Combat", allowedActions := ["attack", "subdue", "flee", "hide", "use"] }
  | .stealth =>
    { name := "Stealth", allowedActions := ["sneak", "hide", "flee", "distract", "subdue"] }
  | .puzzle =>
    { name := "Puzzle", allowedActions := ["use", "combine", "examine"] }
  | .cutscene =>
    { name := "Cutscene", allowedActions := [] }

/-- The `GAME_PHASES` string key under which each mode is stored
(src/core/constants.js). -/
def modeKey : Mode → String
  | .exploration => "exploration"
  | .dialogue => "dialogue"
  | .combat => "combat"
  | .stealth => "stealth"
  | .puzzle => "puzzle"
  | .cutscene => "cutscene"

/-- The `MODES[newMode]` string-keyed lookup: `some` mode for the six
recognised keys, `none` (JS `undefined`) for anything else. -/
def modeOfString (s : String) : Option Mode :=
  if s = "exploration" then some .exploration
  else if s = "dialogue" then some .dialogue
  else if s = "combat" then some .combat
  else if s = "stealth" then some .stealth
  else if s = "puzzle" then some .puzzle
  else if s = "cutscene" then some .cutscene
  else none

/-- State of a `ModeManager` instance (src/unnamed/part_003:125).  `events`
records the `mode:changed` notifications emitted on the event bus, newest
last, as (from, to) pairs. -/
structure ModeManagerState where
  currentMode : Mode
  previousMode : Option Mode
  modeStack : List Mode
  transitionLocked : Bool
  events : List (Mode × Mode)
  deriving DecidableEq, Repr

/-- `ModeManager.isActionAllowed` (src/unnamed/part_003:152). -/
def isActionAllowed (mm : ModeManagerState) (actionVerb : String) : Bool :=
  (MODES mm.currentMode).allowedActions.contains actionVerb

/-- `ModeManager.transitionTo` (src/unnamed/part_003:160): reject — returning
`false` with the state untouched and no notification — when the transition
lock is held, when the target key is unrecognised, or when the target equals
the current mode; on success record `previousMode`, optionally push the
outgoing mode, set the time-bounded lock, emit `mode:changed`, and return
`true`. -/
def transitionTo (mm : ModeManagerState) (newMode : String) (pushToStack : Bool) :
    Bool × ModeManagerState :=
  if mm.transitionLocked then (false, mm)
  else
    match modeOfString newMode with
    | none => (false, mm)
    | some target =>
      if mm.currentMode = target then (false, mm)
      else
        (true,
          { currentMode := target,
            previousMode := some mm.currentMode,
            modeStack := if pushToStack then mm.modeStack ++ [mm.currentMode] else mm.modeStack,
            transitionLocked := true,
            events := mm.events ++ [(mm.currentMode, target)] })

/-- The `setTimeout` callback scheduled by a successful `transitionTo`
(src/unnamed/part_003:178), which fires after the lock duration and clears the
transition lock.  Two `transitionTo` calls fall inside one lock window exactly
when this callback does not run between them. -/
def fireLockTimeout (mm : ModeManagerState) : ModeManagerState :=
  { mm with transitionLocked := false }

/-- Helper: `transitionTo` either rejects with no state change, or succeeds
with the transition lock set. -/
theorem transitionTo_cases (mm : ModeManagerState) (t : String) (p : Bool) :
    transitionTo mm t p = (false, mm) ∨
    ((transitionTo mm t p).1 = true ∧ (transitionTo mm t p).2.transitionLocked = true) := by
  unfold transitionTo
  split
  · left; rfl
  · split
    · left; rfl
    · split
      · left; rfl
      · right; exact ⟨rfl, rfl⟩

/-- Helper: a held lock makes `transitionTo` a rejected no-op. -/
theorem transitionTo_locked (mm : ModeManagerState) (t : String) (p : Bool)
    (h : mm.transitionLocked = true) : transitionTo mm t p = (false, mm) := by
  unfold transitionTo
  rw [if_pos h]

/-- C7: `transitionTo` returns `false` with zero side effects — the mode
manager state, including `currentMode`, `previousMode`, the stack, and the
emitted-notification log, is returned unchanged — whenever the lock is held,
the target is unrecognised, or the target equals the current mode; and any
call issued after a successful call, with no lock-timeout firing in between,
is such a rejected no-op, so the second of two calls in one lock window leaves
the mode unchanged. -/
theorem transitionTo_rejections :
    (∀ (mm : ModeManagerState) (target : String) (push : Bool),
        (mm.transitionLocked = true ∨ modeOfString target = none ∨
          modeOfString target = some mm.currentMode) →
        transitionTo mm target push = (false, mm)) ∧
    (∀ (mm : ModeManagerState) (t1 t2 : String) (p1 p2 : Bool),
        (transitionTo mm t1 p1).1 = true →
        transitionTo (transitionTo mm t1 p1).2 t2 p2 = (false, (transitionTo mm t1 p1).2)) := by
  constructor
  · intro mm target push h
    rcases h with h | h | h
    · exact transitionTo_locked mm target push h
    · unfold transitionTo
      split
      · rfl
      · rw [h]
    · unfold transitionTo
      split
      · rfl
      · rw [h]
        simp
  · intro mm t1 t2 p1 p2 hsucc
    rcases transitionTo_cases mm t1 p1 with hrej | ⟨_, hlock⟩
    · rw [hrej] at hsucc
      simp at hsucc
    · exact transitionTo_locked _ t2 p2 hlock

/-- A fresh mode manager in exploration mode (constructor state,
src/unnamed/part_003:126). -/
def mmFresh : ModeManagerState :=
  { currentMode := .exploration, previousMode := none, modeStack := [],
    transitionLocked := false, events := [] }

/-- A mode manager whose transition lock is currently held. -/
def mmLockedW : ModeManagerState :=
  { currentMode := .stealth, previousMode := some .exploration, modeStack := [.exploration],
    transitionLocked := true, events := [(.exploration, .stealth)] }

/-- Witness for C7: a locked manager rejects a `combat` transition unchanged,
and after a fresh manager successfully transitions to `combat`, a `stealth`
transition inside the same lock window is rejected unchanged. -/
theorem transitionTo_rejections_witness :
    transitionTo mmLockedW "combat" true = (false, mmLockedW) ∧
    transitionTo (transitionTo mmFresh "combat" true).2 "stealth" false
      = (false, (transitionTo mmFresh "combat" true).2) :=
  ⟨transitionTo_rejections.1 mmLockedW "combat" true (Or.inl rfl),
   transitionTo_rejections.2 mmFresh "combat" "stealth" true false rfl⟩

/-- `PRIORITY_TIERS.MODIFIER` (src/core/constants.js). -/
def TIER_MODIFIER : ℕ := 0

/-- `PRIORITY_TIERS.IMMEDIATE` (src/core/constants.js). -/
def TIER_IMMEDIATE : ℕ := 1

/-- `PRIORITY_TIERS.ENVIRONMENTAL` (src/core/constants.js). -/
def TIER_ENVIRONMENTAL : ℕ := 2

/-- `PRIORITY_TIERS.SELF` (src/core/constants.js). -/
def TIER_SELF : ℕ := 3

/-- A priority item as pushed by `PriorityManager.evaluate`
(src/unnamed/part_002): `type`, `tier` and the `weight` sort key.  The
heterogeneous `data` payload is carried opaquely to the UI and read by no
verified claim, so it is omitted. -/
structure PriorityItem where
  type : String
  tier : ℕ
  weight : ℤ
  deriving DecidableEq, Repr

/-- The plain-object player vitals stored on `GameState.player.vitals`
(src/unnamed/part_005:19) — distinct from the class-based `VitalsSystem`. -/
structure PlayerVitalsRec where
  health : ℚ
  stamina : ℚ
  stress : ℚ
  detection : ℚ
  deriving DecidableEq, Repr

/-- A room element as supplied by the mission loader (fields read by the
priority evaluator and engine). -/
structure ElementRec where
  id : String
  interactive : Bool
  isObjective : Bool
  defaultAction : String
  deriving DecidableEq, Repr

/-- A room exit as supplied by the mission loader. -/
structure ExitRec where
  destination : String
  label : String
  deriving DecidableEq, Repr

/-- A room (environment) record: id, the `attributes` read by detection, and
its exits and elements. -/
structure EnvRec where
  id : String
  lighting : String
  noise : String
  exits : List ExitRec
  elements : List ElementRec
  deriving DecidableEq, Repr

/-- A mission objective record. -/
structure ObjectiveRec where
  id : String
  type : String
  location : String
  optional : Bool
  completed : Bool
  deriving DecidableEq, Repr

/-- The slice of `GameState` (src/unnamed/part_005:6) that
`PriorityManager.evaluate` reads: current room id, player vitals, player
conditions, equipment, and objectives. -/
structure WorldState where
  currentEnvironment : String
  playerVitals : PlayerVitalsRec
  playerConditions : List String
  equipment : List String
  objectives : List ObjectiveRec
  deriving DecidableEq, Repr

/-- `environments.get(id)` on the JS `Map`, modelled as assoc-list lookup. -/
def envLookup (envs : List (String × EnvRec)) (k : String) : Option EnvRec :=
  (envs.find? (fun e => e.1 = k)).map (fun e => e.2)

/-- Filter predicate of `PriorityManager.getCombatants`
(src/unnamed/part_002:184); the mapping to summary objects is dropped — only
the filtered count is read by `evaluate`. -/
def isCombatant (st : WorldState) (npc : NPCState) : Bool :=
  (npc.location = st.currentEnvironment) && (npc.awareness = Awareness.hostile) &&
    npc.engaged && !(npc.vitals.conditions.contains "unconscious")

/-- Filter predicate of `PriorityManager.getEngagedNPCs`
(src/unnamed/part_002:141). -/
def isEngagedNPC (st : WorldState) (npc : NPCState) : Bool :=
  (npc.location = st.currentEnvironment) && npc.engaged &&
    !(npc.awareness = Awareness.unaware) && !(npc.vitals.conditions.contains "unconscious")

/-- Filter predicate of `PriorityManager.getNearbyNPCs`
(src/unnamed/part_002:163). -/
def isNearbyNPC (st : WorldState) (npc : NPCState) : Bool :=
  (npc.location = st.currentEnvironment) && !npc.engaged &&
    !(npc.vitals.conditions.contains "unconscious")

/-- `PriorityManager.getCriticalConditions` (src/unnamed/part_002:205),
keeping one tag per entry pushed (the message strings are elided). -/
def getCriticalConditions (st : WorldState) : List String :=
  (if st.playerVitals.health ≤ HEALTH_CRITICAL then ["health-critical"] else []) ++
  (if STRESS_CRITICAL ≤ st.playerVitals.stress then ["stress-critical"] else []) ++
  (if DETECTION_SPOTTED ≤ st.playerVitals.detection then ["detection-critical"] else []) ++
  (st.playerConditions.filter
      (fun c => (["critical", "panicked", "bleeding"] : List String).contains c)).map
    (fun _ => "condition-critical")

/-- The UI-overlay modifier vector built by `PriorityManager.getUIModifiers`
(src/unnamed/part_002:359). -/
structure UIModifiers where
  shake : ℚ
  blur : ℚ
  darken : ℚ
  pulse : ℚ
  vignette : ℚ
  tint : Option String
  hasEffects : Bool
  deriving DecidableEq, Repr

/-- Initial modifier object of `getUIModifiers` (src/unnamed/part_002:360). -/
def uiModifiersInit : UIModifiers :=
  { shake := 0, blur := 0, darken := 0, pulse := 0, vignette := 0, tint := none, hasEffects := false }

/-- High-stress branch of `getUIModifiers` (src/unnamed/part_002:372): shake
scales with stress above 70, pulse is half the new shake. -/
def stressMod1 (st : WorldState) (m : UIModifiers) : UIModifiers :=
  if STRESS_HIGH < st.playerVitals.stress then
    { m with shake := jsMin 1 ((st.playerVitals.stress - STRESS_HIGH) / 30),
             pulse := jsMin 1 ((st.playerVitals.stress - STRESS_HIGH) / 30) * (1 / 2),
             hasEffects := true }
  else m

/-- Critical-stress branch of `getUIModifiers` (src/unnamed/part_002:377). -/
def stressMod2 (st : WorldState) (m : UIModifiers) : UIModifiers :=
  if STRESS_CRITICAL ≤ st.playerVitals.stress then
    { m with blur := 3 / 10, hasEffects := true }
  else m

/-- Wounded-health branch of `getUIModifiers` (src/unnamed/part_002:384). -/
def healthMod1 (st : WorldState) (m : UIModifiers) : UIModifiers :=
  if st.playerVitals.health < HEALTH_WOUNDED then
    { m with vignette := jsMin 1 ((HEALTH_WOUNDED - st.playerVitals.health) / 30),
             hasEffects := true }
  else m

/-- Critical-health branch of `getUIModifiers` (src/unnamed/part_002:388). -/
def healthMod2 (st : WorldState) (m : UIModifiers) : UIModifiers :=
  if st.playerVitals.health ≤ HEALTH_CRITICAL then
    { m with tint := some "rgba(255, 0, 0, 0.1)", pulse := jsMax m.pulse (8 / 10),
             hasEffects := true }
  else m

/-- Detection branch of `getUIModifiers` (src/unnamed/part_002:396); the
interpolated alpha value inside the tint string is elided. -/
def detectionMod (st : WorldState) (m : UIModifiers) : UIModifiers :=
  if DETECTION_SUSPICIOUS < st.playerVitals.detection then
    { m with tint := some "rgba(255, 165, 0, detection)", hasEffects := true }
  else m

/-- One iteration of the condition `switch` of `getUIModifiers`
(src/unnamed/part_002:402). -/
def condModStep (m : UIModifiers) (c : String) : UIModifiers :=
  if c = "panicked" then
    { m with shake := jsMax m.shake (6 / 10), blur := jsMax m.blur (2 / 10), hasEffects := true }
  else if c = "hidden" then { m with darken := 2 / 10, hasEffects := true }
  else if c = "adrenaline" then
    { m with pulse := jsMax m.pulse (7 / 10), tint := some "rgba(255, 100, 100, 0.05)",
             hasEffects := true }
  else if c = "exhausted" then
    { m with blur := jsMax m.blur (1 / 10), darken := jsMax m.darken (15 / 100),
             hasEffects := true }
  else m

/-- `PriorityManager.getUIModifiers` (src/unnamed/part_002:359): the stress,
health and detection branches in source order, then the per-condition loop. -/
def getUIModifiers (st : WorldState) : UIModifiers :=
  st.playerConditions.foldl condModStep
    (detectionMod st (healthMod2 st (healthMod1 st (stressMod2 st (stressMod1 st uiModifiersInit)))))

/-- An action entry built by `PriorityManager.getEnvironmentActions`.  The
label, position and keycard `blocked` annotations are data-payload metadata
that do not affect which actions are appended and are omitted. -/
structure ActionRec where
  verb : String
  target : String
  type : String
  deriving DecidableEq, Repr

/-- `PriorityManager.getEnvironmentActions` (src/unnamed/part_002:253): one
`move` action per exit, one action per interactive element, then the two
universal `look`/`listen` actions; an absent environment yields the empty
list. -/
def getEnvironmentActions (env : Option EnvRec) : List ActionRec :=
  match env with
  | none => []
  | some e =>
      (e.exits.map (fun x => { verb := "move", target := x.destination, type := "movement" }))
      ++ ((e.elements.filter (fun el => el.interactive)).map
            (fun el => { verb := el.defaultAction, target := el.id, type := "interaction" }))
      ++ [{ verb := "look", target := "room", type := "observation" },
          { verb := "listen", target := "room", type := "observation" }]

/-- `PriorityManager.getInteractiveElements` (src/unnamed/part_002:303),
keeping the element ids. -/
def getInteractiveElements (env : Option EnvRec) : List String :=
  match env with
  | none => []
  | some e => (e.elements.filter (fun el => el.interactive)).map (fun el => el.id)

/-- Result of `PriorityManager.checkObjectiveProximity`
(src/unnamed/part_002:324). -/
inductive ObjectiveProximity where
  | objectiveInRoom (elementIds : List String)
  | reachObjective (objectiveIds : List String)
  deriving DecidableEq, Repr

/-- `PriorityManager.checkObjectiveProximity` (src/unnamed/part_002:324):
`null` without an environment; otherwise objective-flagged elements first,
then pending `reach` objectives for this room, else `null`. -/
def checkObjectiveProximity (st : WorldState) (env : Option EnvRec) : Option ObjectiveProximity :=
  match env with
  | none => none
  | some e =>
      if (e.elements.filter (fun el => el.isObjective)) ≠ [] then
        some (.objectiveInRoom ((e.elements.filter (fun el => el.isObjective)).map (fun el => el.id)))
      else if (st.objectives.filter
          (fun o => o.type = "reach" && o.location = e.id && !o.completed)) ≠ [] then
        some (.reachObjective ((st.objectives.filter
          (fun o => o.type = "reach" && o.location = e.id && !o.completed)).map (fun o => o.id)))
      else none

/-- The `priorities` array as built by the conditional `push` calls of
`PriorityManager.evaluate` (src/unnamed/part_002:27), in source order, before
the final sort. -/
def evalItems (st : WorldState) (envs : List (String × EnvRec)) (npcs : List NPCState) :
    List PriorityItem :=
  (if (getUIModifiers st).hasEffects then
    [{ type := "condition-overlay", tier := TIER_MODIFIER, weight := 90 }] else [])
  ++ (if npcs.filter (isCombatant st) ≠ [] then
    [{ type := "combat", tier := TIER_IMMEDIATE, weight := 100 }] else [])
  ++ (if npcs.filter (isEngagedNPC st) ≠ [] ∧ npcs.filter (isCombatant st) = [] then
    [{ type := "npc-interaction", tier := TIER_IMMEDIATE, weight := 95 }] else [])
  ++ (if getCriticalConditions st ≠ [] then
    [{ type := "critical-status", tier := TIER_IMMEDIATE, weight := 85 }] else [])
  ++ (if npcs.filter (isNearbyNPC st) ≠ [] ∧ npcs.filter (isEngagedNPC st) = [] then
    [{ type := "npc-nearby", tier := TIER_ENVIRONMENTAL, weight := 60 }] else [])
  ++ (if (checkObjectiveProximity st (envLookup envs st.currentEnvironment)).isSome then
    [{ type := "objective-near", tier := TIER_ENVIRONMENTAL, weight := 70 }] else [])
  ++ (if getEnvironmentActions (envLookup envs st.currentEnvironment) ≠ [] then
    [{ type := "environment-actions", tier := TIER_ENVIRONMENTAL, weight := 50 }] else [])
  ++ (if getInteractiveElements (envLookup envs st.currentEnvironment) ≠ [] then
    [{ type := "interactive-elements", tier := TIER_ENVIRONMENTAL, weight := 45 }] else [])
  ++ [{ type := "inventory", tier := TIER_SELF, weight := 20 },
      { type := "vitals", tier := TIER_SELF, weight := 15 }]

/-- Stable insertion of one item into a weight-descending list: the item goes
in front of the first element of not-larger weight.  Together with
`sortByWeightDesc` this realises the stable `Array.prototype.sort` with
comparator `(a, b) => b.weight - a.weight` (src/unnamed/part_002:130):
descending by weight, earlier-pushed items first among equal weights. -/
def insertDesc (x : PriorityItem) : List PriorityItem → List PriorityItem
  | [] => [x]
  | y :: ys => if y.weight ≤ x.weight then x :: y :: ys else y :: insertDesc x ys

/-- Stable sort, descending by weight (see `insertDesc`). -/
def sortByWeightDesc : List PriorityItem → List PriorityItem
  | [] => []
  | x :: xs => insertDesc x (sortByWeightDesc xs)

/-- `PriorityManager.evaluate` (src/unnamed/part_002:21): build the items and
sort them by weight, highest first.  The 100 ms result cache
(src/unnamed/part_002:23) only replays the previous return value inside its
lifetime and is not part of the evaluation path embedded here. -/
def evaluate (st : WorldState) (envs : List (String × EnvRec)) (npcs : List NPCState) :
    List PriorityItem :=
  sortByWeightDesc (evalItems st envs npcs)

/-- `PriorityManager.getTopPriority` (src/unnamed/part_002:457): element 0,
or `null` on an empty list. -/
def getTopPriority (st : WorldState) (envs : List (String × EnvRec)) (npcs : List NPCState) :
    Option PriorityItem :=
  (evaluate st envs npcs).head?

/-- Helper: membership through `insertDesc`. -/
theorem mem_insertDesc (x a : PriorityItem) (l : List PriorityItem) :
    a ∈ insertDesc x l ↔ a = x ∨ a ∈ l := by
  induction l with
  | nil => simp [insertDesc]
  | cons y ys ih =>
    unfold insertDesc
    split
    · simp
    · simp only [List.mem_cons, ih]
      tauto

/-- Helper: membership through the sort. -/
theorem mem_sortByWeightDesc (a : PriorityItem) (l : List PriorityItem) :
    a ∈ sortByWeightDesc l ↔ a ∈ l := by
  induction l with
  | nil => simp [sortByWeightDesc]
  | cons x xs ih =>
    simp [sortByWeightDesc, mem_insertDesc, ih]

/-- Helper: `insertDesc` keeps a weight-descending list weight-descending. -/
theorem insertDesc_pairwise (x : PriorityItem) :
    ∀ l : List PriorityItem, l.Pairwise (fun a b => b.weight ≤ a.weight) →
    (insertDesc x l).Pairwise (fun a b => b.weight ≤ a.weight) := by
  intro l
  induction l with
  | nil =>
    intro _
    simp [insertDesc]
  | cons y ys ih =>
    intro h
    rcases List.pairwise_cons.1 h with ⟨hy, hys⟩
    unfold insertDesc
    split
    · rename_i hyx
      refine List.pairwise_cons.2 ⟨?_, h⟩
      intro b hb
      rcases List.mem_cons.1 hb with hb | hb
      · subst hb
        exact hyx
      · exact le_trans (hy b hb) hyx
    · rename_i hyx
      refine List.pairwise_cons.2 ⟨?_, ih hys⟩
      intro b hb
      rcases (mem_insertDesc x b ys).1 hb with hb | hb
      · subst hb
        exact le_of_not_le hyx
      · exact hy b hb

/-- Helper: the sort output is weight-descending. -/
theorem sortByWeightDesc_pairwise (l : List PriorityItem) :
    (sortByWeightDesc l).Pairwise (fun a b => b.weight ≤ a.weight) := by
  induction l with
  | nil => simp [sortByWeightDesc]
  | cons x xs ih => exact insertDesc_pairwise x (sortByWeightDesc xs) ih

/-- Helper: `insertDesc` is stable — filtering any weight class returns the
class in its original order, with the new item first when it belongs. -/
theorem insertDesc_filter (x : PriorityItem) (l : List PriorityItem) (w : ℤ) :
    (insertDesc x l).filter (fun i => i.weight = w)
      = (if x.weight = w then [x] else []) ++ l.filter (fun i => i.weight = w) := by
  induction l with
  | nil =>
    by_cases hx : x.weight = w <;> simp [insertDesc, hx]
  | cons y ys ih =>
    unfold insertDesc
    split
    · by_cases hx : x.weight = w <;> simp [hx, List.filter_cons]
    · rename_i hyx
      by_cases hy : y.weight = w
      · by_cases hx : x.weight = w
        · exfalso
          exact hyx (by rw [hy, hx])
        · simp only [List.filter_cons, hy, if_pos, ih, hx, if_neg]
          simp [hy, hx]
      · simp only [List.filter_cons, ih]
        simp [hy]

/-- Helper: the sort is stable — each weight class keeps its push order. -/
theorem sortByWeightDesc_filter (l : List PriorityItem) (w : ℤ) :
    (sortByWeightDesc l).filter (fun i => i.weight = w) = l.filter (fun i => i.weight = w) := by
  induction l with
  | nil => simp [sortByWeightDesc]
  | cons x xs ih =>
    unfold sortByWeightDesc
    rw [insertDesc_filter, ih, List.filter_cons]
    by_cases hx : x.weight = w <;> simp [hx]

/-- Helper: every item `evaluate` can return with type `combat` has weight
100, and every item with type `objective-near` has weight 70 — these are the
only pushes of those types. -/
theorem evalItems_type_weight (st : WorldState) (envs : List (String × EnvRec))
    (npcs : List NPCState) (x : PriorityItem) (hx : x ∈ evalItems st envs npcs) :
    (x.type = "combat" → x.weight = 100) ∧ (x.type = "objective-near" → x.weight = 70) := by
  have hone : ∀ (p : Prop) (inst : Decidable p) (y : PriorityItem),
      x ∈ (if p then [y] else []) → x = y := by
    intro p inst y hxy
    split at hxy <;> simp_all
  unfold evalItems at hx
  simp only [List.mem_append] at hx
  rcases hx with ((((((((h | h) | h) | h) | h) | h) | h) | h) | h)
  all_goals first
    | (have hx2 := hone _ _ _ h
       subst hx2
       refine ⟨fun ht => ?_, fun ht => ?_⟩ <;> first | rfl | (exact absurd ht (by decide)))
    | (rcases List.mem_cons.1 h with h2 | h2
       · subst h2
         exact ⟨fun ht => absurd ht (by decide), fun ht => absurd ht (by decide)⟩
       · rcases List.mem_cons.1 h2 with h3 | h3
         · subst h3
           exact ⟨fun ht => absurd ht (by decide), fun ht => absurd ht (by decide)⟩
         · exact absurd h3 (List.not_mem_nil x))

/-- C6: for every world snapshot the list `evaluate` returns is sorted in
descending weight order; the sort is stable — each weight class appears in
exactly its push order from evaluation — and consequently any `combat` item
(weight 100) appears at a strictly smaller index than any `objective-near`
item (weight 70). -/
theorem evaluate_sorted_stable_combat_first :
    (∀ (st : WorldState) (envs : List (String × EnvRec)) (npcs : List NPCState),
        (evaluate st envs npcs).Pairwise (fun a b => b.weight ≤ a.weight)) ∧
    (∀ (st : WorldState) (envs : List (String × EnvRec)) (npcs : List NPCState) (w : ℤ),
        (evaluate st envs npcs).filter (fun i => i.weight = w)
          = (evalItems st envs npcs).filter (fun i => i.weight = w)) ∧
    (∀ (st : WorldState) (envs : List (String × EnvRec)) (npcs : List NPCState)
        (i j : ℕ) (a b : PriorityItem),
        (evaluate st envs npcs).get? i = some a →
        (evaluate st envs npcs).get? j = some b →
        a.type = "combat" → b.type = "objective-near" → i < j) := by
  refine ⟨fun st envs npcs => sortByWeightDesc_pairwise _,
          fun st envs npcs w => sortByWeightDesc_filter _ w,
          fun st envs npcs i j a b ha hb hta htb => ?_⟩
  by_contra hij
  push_neg at hij
  obtain ⟨hi, hgi⟩ := List.get?_eq_some.1 ha
  obtain ⟨hj, hgj⟩ := List.get?_eq_some.1 hb
  have hmema : a ∈ evaluate st envs npcs := by
    rw [← hgi]; exact List.get_mem _ _ _
  have hmemb : b ∈ evaluate st envs npcs := by
    rw [← hgj]; exact List.get_mem _ _ _
  have hwa : a.weight = 100 :=
    (evalItems_type_weight st envs npcs a ((mem_sortByWeightDesc a _).1 hmema)).1 hta
  have hwb : b.weight = 70 :=
    (evalItems_type_weight st envs npcs b ((mem_sortByWeightDesc b _).1 hmemb)).2 htb
  rcases lt_or_eq_of_le hij with hji | hji
  · have hpair : (evaluate st envs npcs).Pairwise (fun a b => b.weight ≤ a.weight) :=
      sortByWeightDesc_pairwise (evalItems st envs npcs)
    have hpw := List.pairwise_iff_get.1 hpair ⟨j, hj⟩ ⟨i, hi⟩ hji
    rw [hgi, hgj, hwa, hwb] at hpw
    norm_num at hpw
  · have hab : a = b := by
      rw [← hgi, ← hgj]
      simp [← hji]
    rw [hab, htb] at hta
    exact absurd hta (by decide)

/-- The player at rest (full vitals, no exposure). -/
def pvRest : PlayerVitalsRec := { health := 100, stamina := 100, stress := 0, detection := 0 }

/-- A snapshot with one hostile engaged NPC and one objective-bearing element
in the current room. -/
def stW : WorldState :=
  { currentEnvironment := "server-room", playerVitals := pvRest, playerConditions := [],
    equipment := [], objectives := [] }

/-- The current room for the C6 witness: one exit, one interactive objective
element. -/
def envW : EnvRec :=
  { id := "server-room", lighting := "dim", noise := "quiet",
    exits := [{ destination := "hallway", label := "Hallway" }],
    elements := [{ id := "server-rack", interactive := true, isObjective := true,
                   defaultAction := "hack" }] }

/-- The environments map for the C6 witness. -/
def envsW : List (String × EnvRec) := [("server-room", envW)]

/-- A hostile engaged guard in the current room. -/
def npcCombatW : NPCState :=
  { id := "guard-3", type := "guard", location := "server-room",
    vitals := { vitalsDefault with awareness := Awareness.hostile, suspicion := 100, alertCooldown := 0 },
    awareness := Awareness.hostile, engaged := true, dialogueId := none,
    behavior := "guard", actionCooldown := 0, jsState := none,
    engagementHandled := true, alreadySpotted := true }

/-- The NPC list for the C6 witness. -/
def npcsW : List NPCState := [npcCombatW]

/-- Witness for C6: on the hostile-plus-objective snapshot, the combat item
sits at index 0 and the objective item at index 1, and the theorem yields
`0 < 1` from those two reads. -/
theorem evaluate_sorted_stable_combat_first_witness :
    (evaluate stW envsW npcsW).get? 0
      = some { type := "combat", tier := TIER_IMMEDIATE, weight := 100 } ∧
    (evaluate stW envsW npcsW).get? 1
      = some { type := "objective-near", tier := TIER_ENVIRONMENTAL, weight := 70 } ∧
    (0 : ℕ) < 1 := by
  have h0 : (evaluate stW envsW npcsW).get? 0
      = some { type := "combat", tier := TIER_IMMEDIATE, weight := 100 } := by decide
  have h1 : (evaluate stW envsW npcsW).get? 1
      = some { type := "objective-near", tier := TIER_ENVIRONMENTAL, weight := 70 } := by decide
  exact ⟨h0, h1,
    evaluate_sorted_stable_combat_first.2.2 stW envsW npcsW 0 1 _ _ h0 h1 rfl rfl⟩

/-- C9: the Self-tier inventory (weight 20) and vitals (weight 15) items are
appended unconditionally on every snapshot — including one with no NPCs, no
environment and no conditions — so `evaluate` never returns an empty list and
`getTopPriority` never returns `null`. -/
theorem self_items_always_present :
    ∀ (st : WorldState) (envs : List (String × EnvRec)) (npcs : List NPCState),
      ({ type := "inventory", tier := TIER_SELF, weight := 20 } : PriorityItem)
          ∈ evaluate st envs npcs ∧
      ({ type := "vitals", tier := TIER_SELF, weight := 15 } : PriorityItem)
          ∈ evaluate st envs npcs ∧
      evaluate st envs npcs ≠ [] ∧
      getTopPriority st envs npcs ≠ none := by
  intro st envs npcs
  have hinv : ({ type := "inventory", tier := TIER_SELF, weight := 20 } : PriorityItem)
      ∈ evalItems st envs npcs := by
    unfold evalItems
    simp
  have hvit : ({ type := "vitals", tier := TIER_SELF, weight := 15 } : PriorityItem)
      ∈ evalItems st envs npcs := by
    unfold evalItems
    simp
  have hinv2 := (mem_sortByWeightDesc _ _).2 hinv
  have hvit2 := (mem_sortByWeightDesc _ _).2 hvit
  have hne : evaluate st envs npcs ≠ [] := List.ne_nil_of_mem hinv2
  refine ⟨hinv2, hvit2, hne, ?_⟩
  intro hnone
  unfold getTopPriority at hnone
  exact hne (List.head?_eq_none_iff.1 hnone)

/-- `DETECTION_GRACE_PERIOD` (src/unnamed/part_006:272), milliseconds. -/
def DETECTION_GRACE_PERIOD : ℤ := 3000

/-- `DETECTION_CHECK_INTERVAL` (src/unnamed/part_006:273), milliseconds. -/
def DETECTION_CHECK_INTERVAL : ℤ := 1500

/-- `DETECTION_BASE_CHANCE` (src/unnamed/part_006:274), percent. -/
def DETECTION_BASE_CHANCE : ℚ := 8

/-- `DETECTION_INCREMENT` (src/unnamed/part_006:275). -/
def DETECTION_INCREMENT : ℚ := 5

/-- State of a `GlassShadow` instance (src/unnamed/part_006:280) restricted to
the engine fields the verified claims concern.  `world` is the `GameState`
slice shared with the priority evaluator; `flags` is the story-flag `Map`;
`speeches`, `busEvents` and `errors` log `sloan.forceSpeech` lines, event-bus
emissions and `showError` overlays, oldest first; `animationOn` tracks whether
the animation-frame loop is scheduled (`stop()` clears it); `handlerCalls`
traces which action handler `executeAction` dispatched; the remaining fields
are the detection gate state, with `pendingDetectionTimers` holding the
deadlines of every live `setTimeout` scheduled by `enterRoom`, oldest first —
the source never calls `clearTimeout`, so an earlier room's timer stays live
across a later transition and the list can hold several entries.  The
rendering, advisor and UI-panel subsystems hold no state any claim reads and
are not modelled. -/
structure Game where
  world : WorldState
  npcs : List NPCState
  environments : List (String × EnvRec)
  modeMgr : ModeManagerState
  flags : List (String × Bool)
  sloanConnection : ℚ
  speeches : List String
  busEvents : List String
  errors : List String
  animationOn : Bool
  handlerCalls : List String
  detectionEnabled : Bool
  roomEntryTime : ℤ
  lastDetectionCheck : ℤ
  pendingDetectionTimers : List ℤ
  deriving DecidableEq, Repr

/-- JS `Map.set` on a string-keyed map of booleans (keys unique): replace the
value at an existing key in place, else append the pair. -/
def mapSet (m : List (String × Bool)) (k : String) (v : Bool) : List (String × Bool) :=
  match m with
  | [] => [(k, v)]
  | e :: es => if e.1 = k then (k, v) :: es else e :: mapSet es k v

/-- JS `Map.get` on the same representation. -/
def mapGet (m : List (String × Bool)) (k : String) : Option Bool :=
  match m with
  | [] => none
  | e :: es => if e.1 = k then some e.2 else mapGet es k

/-- `GameState.setFlag` (src/unnamed/part_005:111). -/
def setFlag (g : Game) (k : String) (v : Bool) : Game :=
  { g with flags := mapSet g.flags k v }

/-- `GameState.hasFlag` (src/unnamed/part_005:118): `flags.get(key) === true`. -/
def hasFlag (g : Game) (k : String) : Bool :=
  match mapGet g.flags k with
  | some b => b
  | none => false

/-- One key of `GameState.updateVitals` (src/unnamed/part_005:75): clamp the
named vital into `[0, 100]` when the key is an own-property of
`player.vitals`; unknown keys are skipped. -/
def updateVitalKey (pv : PlayerVitalsRec) (k : String) (delta : ℚ) : PlayerVitalsRec :=
  if k = "health" then { pv with health := jsMax 0 (jsMin 100 (pv.health + delta)) }
  else if k = "stamina" then { pv with stamina := jsMax 0 (jsMin 100 (pv.stamina + delta)) }
  else if k = "stress" then { pv with stress := jsMax 0 (jsMin 100 (pv.stress + delta)) }
  else if k = "detection" then { pv with detection := jsMax 0 (jsMin 100 (pv.detection + delta)) }
  else pv

/-- Field update helper for the nested player vitals. -/
def withPlayerVitals (g : Game) (pv : PlayerVitalsRec) : Game :=
  { g with world := { g.world with playerVitals := pv } }

/-- The Sloan connection refresh at the end of `GameState.updateVitals`
(src/unnamed/part_005:84). -/
def applySloanQuality (g : Game) : Game :=
  { g with sloanConnection := jsMax 0 (100 - g.world.playerVitals.stress) }

/-- `GameState.updateVitals` (src/unnamed/part_005:75): fold the change
entries over the vitals, then refresh the Sloan connection quality. -/
def updateVitals (g : Game) (changes : List (String × ℚ)) : Game :=
  applySloanQuality
    (withPlayerVitals g (changes.foldl (fun pv c => updateVitalKey pv c.1 c.2) g.world.playerVitals))

/-- Append one `sloan.forceSpeech` line. -/
def addSpeech (g : Game) (s : String) : Game := { g with speeches := g.speeches ++ [s] }

/-- Append one event-bus emission. -/
def addEvent (g : Game) (e : String) : Game := { g with busEvents := g.busEvents ++ [e] }

/-- Append one `showError` overlay message. -/
def addError (g : Game) (e : String) : Game := { g with errors := g.errors ++ [e] }

/-- Record which handler `executeAction` dispatched. -/
def addHandlerCall (g : Game) (h : String) : Game :=
  { g with handlerCalls := g.handlerCalls ++ [h] }

/-- `GlassShadow.stop` (src/unnamed/part_006:1569): cancel the animation
frame, halting the tick loop. -/
def stopGame (g : Game) : Game := { g with animationOn := false }

/-- `GlassShadow.waitAction` (src/unnamed/part_006:792): recover stress and
stamina, then Sloan speaks; `updateUI` holds no modelled state. -/
def waitAction (g : Game) : Game :=
  addSpeech (updateVitals g [("stress", -10), ("stamina", 5)]) "Taking a moment. Stay alert."

/-- `GlassShadow.executeAction` (src/unnamed/part_006:732): a `switch` on the
verb dispatches directly to the named handler — no branch consults
`ModeManager.isActionAllowed`, and an unrecognised verb falls to the logging
`default` with no effect.  Every branch records the handler it invokes in
`handlerCalls`; the `wait` branch is embedded with its handler's full effect
(`waitAction`), which is the handler the claims exercise — the other
handlers' own effects concern room movement, items, dialogue and combat
subsystems outside the verified claims and are represented by their trace
entry alone. -/
def executeAction (g : Game) (verb : String) : Game :=
  if verb = "move" then addHandlerCall g "moveToRoom"
  else if verb = "sneak" then addHandlerCall g "sneakToRoom"
  else if verb = "examine" then addHandlerCall g "examineElement"
  else if verb = "take" then addHandlerCall g "takeItem"
  else if verb = "use" then addHandlerCall g "useItem"
  else if verb = "hack" then addHandlerCall g "hackTerminal"
  else if verb = "talk" then addHandlerCall g "startDialogue"
  else if verb = "look" then addHandlerCall g "surveyRoom"
  else if verb = "listen" then addHandlerCall g "listenForSounds"
  else if verb = "wait" then addHandlerCall (waitAction g) "waitAction"
  else if verb = "contact-mack" then addHandlerCall g "contactMack"
  else if verb = "contact-sloan" then addHandlerCall g "offerMackConnection"
  else if verb = "subdue" then addHandlerCall g "attemptSubdue"
  else if verb = "flee" then addHandlerCall g "attemptFlee"
  else if verb = "attack" then addHandlerCall g "attemptAttack"
  else g

/-- The Sloan line spoken by `handleGameOver` (src/unnamed/part_006:1490). -/
def GAME_OVER_SPEECH : String := "We've lost contact. Mission failed."

/-- The Sloan line spoken by `handleMissionComplete`
(src/unnamed/part_006:1507). -/
def MISSION_COMPLETE_SPEECH : String := "You're out. Good work. We got what we needed."

/-- `GlassShadow.handleGameOver` (src/unnamed/part_006:1485): one-shot on the
`game_over` flag — checked before acting — then set the flag, speak the
failure line, stop the loop, and show the failure screen. -/
def handleGameOver (g : Game) (reason : String) : Game :=
  if hasFlag g "game_over" then g
  else
    addError (stopGame (addSpeech (setFlag g "game_over" true) GAME_OVER_SPEECH))
      ("MISSION FAILED\n\n" ++ reason)

/-- `GlassShadow.handleMissionComplete` (src/unnamed/part_006:1502): one-shot
on the `mission_complete` flag; sets it, speaks, stops the loop, and shows the
victory screen (its stats text — computed from objectives, detection and the
advisor counters — is represented by its fixed heading). -/
def handleMissionComplete (g : Game) : Game :=
  if hasFlag g "mission_complete" then g
  else
    addError (stopGame (addSpeech (setFlag g "mission_complete" true) MISSION_COMPLETE_SPEECH))
      "MISSION COMPLETE: The Quiet Floor"

/-- The `exitObj.completed = true` mutation in `checkWinLoseConditions`
(src/unnamed/part_006:1476). -/
def markObjectiveComplete (objs : List ObjectiveRec) (oid : String) : List ObjectiveRec :=
  objs.map (fun o => if o.id = oid then { o with completed := true } else o)

/-- Field update helper for the nested objectives list. -/
def withObjectives (g : Game) (objs : List ObjectiveRec) : Game :=
  { g with world := { g.world with objectives := objs } }

/-- `GlassShadow.checkWinLoseConditions` (src/unnamed/part_006:1450): early
return once either terminal flag is set; lose on non-positive health or the
alarm flag; win when the logs are held, the player is at the lobby exit, and
the `logs_acquired` flag holds, completing the extraction objective exactly
once. -/
def checkWinLoseConditions (g : Game) : Game :=
  if hasFlag g "game_over" || hasFlag g "mission_complete" then g
  else if g.world.playerVitals.health ≤ 0 then handleGameOver g "You were killed."
  else if hasFlag g "alarm_triggered" then
    handleGameOver g "The alarm was triggered. Evidence will be destroyed."
  else if g.world.equipment.contains "access-logs" && (g.world.currentEnvironment = "lobby-main")
      && hasFlag g "logs_acquired" then
    match g.world.objectives.find? (fun o => o.id = "obj-extract-exit") with
    | some o =>
      if o.completed = false then
        handleMissionComplete (withObjectives g (markObjectiveComplete g.world.objectives "obj-extract-exit"))
      else g
    | none => g
  else g

/-- `ModeManager.getCurrentMode` (src/unnamed/part_003:137) as the JS value it
returns: the mode-configuration object — not the mode's string key. -/
def getCurrentModeJs (mm : ModeManagerState) : JsValue :=
  JsValue.obj (MODES mm.currentMode).name

/-- `Array.prototype.includes` under SameValueZero semantics: an array of
strings contains a value only when that value is one of the strings; an
object value is never found. -/
def jsIncludes (l : List String) (v : JsValue) : Bool :=
  match v with
  | JsValue.str s => l.contains s
  | _ => false

/-- The `canCheckDetection` gate of `GlassShadow.update`
(src/unnamed/part_006:1316): detection enabled, throttle interval elapsed, and
the value of `getCurrentMode()` not in `['combat', 'dialogue']` (the
`|| 'exploration'` fallback applies only when the mode manager is absent,
which never holds once the game is initialised). -/
def canCheckDetection (g : Game) (now : ℤ) : Bool :=
  g.detectionEnabled && (DETECTION_CHECK_INTERVAL < now - g.lastDetectionCheck)
    && !(jsIncludes ["combat", "dialogue"] (getCurrentModeJs g.modeMgr))

/-- The detection chance computed per NPC by `checkNPCDetection`
(src/unnamed/part_006:1372-1384). -/
def detectChance (g : Game) (env : EnvRec) (npc : NPCState) : ℚ :=
  DETECTION_BASE_CHANCE
  + (if npc.awareness = Awareness.alert then 10 else 0)
  + (if npc.awareness = Awareness.hostile then 20 else 0)
  + (if env.lighting = "bright" then 5 else 0)
  + (if env.lighting = "dim" then -5 else 0)
  + (if g.world.playerConditions.contains "hidden" then -15 else 0)
  + (if 50 < g.world.playerVitals.stress then 5 else 0)
  + (if env.noise = "loud" then -5 else 0)
  + (if env.noise = "silent" then 10 else 0)

/-- Direct assignment to `state.player.vitals.detection` as performed by
`checkNPCDetection` (src/unnamed/part_006:1393) — no condition recompute, no
Sloan-quality refresh. -/
def setPlayerDetection (g : Game) (d : ℚ) : Game :=
  withPlayerVitals g { g.world.playerVitals with detection := d }

/-- `GlassShadow.startDialogue` (src/unnamed/part_006:1106): missing NPC is a
no-op; otherwise emit `dialogue:start` (its static dialogue-tree payload is
carried on the event and holds no modelled state). -/
def startDialogue (g : Game) (npcId : String) : Game :=
  if (g.npcs.find? (fun n => n.id = npcId)).isSome then addEvent g "dialogue:start" else g

/-- The mode transition as invoked by the engine, discarding the returned
boolean (src/unnamed/part_006:1437, 1442). -/
def applyTransition (g : Game) (target : String) (push : Bool) : Game :=
  { g with modeMgr := (transitionTo g.modeMgr target push).2 }

/-- `GlassShadow.handleNPCEngagement` (src/unnamed/part_006:1434): a hostile
NPC pushes combat mode with a danger event and a warning line; otherwise an
NPC with dialogue (or any guard) pushes dialogue mode and starts the
dialogue. -/
def handleNPCEngagement (g : Game) (npc : NPCState) : Game :=
  if npc.awareness = Awareness.hostile then
    addSpeech (addEvent (applyTransition g "combat" true) "danger:detected")
      "Contact! You've been made!"
  else if npc.dialogueId.isSome || npc.type = "guard" then
    startDialogue (applyTransition g "dialogue" true) npc.id
  else g

/-- The threshold responses of `checkNPCDetection`
(src/unnamed/part_006:1404-1426), run after the detection increment with the
new detection value read back from the state; returns the updated game, the
updated NPC, and whether the loop aborts (the `return` on mission failure). -/
def detectThresholds (g : Game) (npc : NPCState) : Game × NPCState × Bool :=
  if 100 ≤ g.world.playerVitals.detection then
    (handleGameOver g "You were caught by security.", npc, true)
  else if 80 ≤ g.world.playerVitals.detection ∧ npc.engagementHandled = false then
    (handleNPCEngagement g { npc with engaged := true, engagementHandled := true },
     { npc with engaged := true, engagementHandled := true }, false)
  else if 50 ≤ g.world.playerVitals.detection ∧ npc.awareness ≠ Awareness.suspicious then
    (if npc.alreadySpotted = false then
      (addSpeech (addEvent g "npc:spotted") "They're getting suspicious. Be careful.",
       { npc with awareness := Awareness.suspicious, alreadySpotted := true }, false)
     else (g, { npc with awareness := Awareness.suspicious }, false))
  else if 30 ≤ g.world.playerVitals.detection ∧ npc.alreadySpotted = false then
    (addSpeech g "Watch it. Someone's looking around.",
     { npc with awareness := Awareness.alert, alreadySpotted := true }, false)
  else (g, npc, false)

/-- The per-NPC roll of `checkNPCDetection` (src/unnamed/part_006:1387): on
`roll < detectChance`, increment the player's detection by 5 capped at 100,
emit `detection:increased`, and run the threshold responses; otherwise
nothing happens. -/
def detectOne (g : Game) (env : EnvRec) (npc : NPCState) (roll : ℚ) : Game × NPCState × Bool :=
  if roll < detectChance g env npc then
    detectThresholds
      (addEvent (setPlayerDetection g (jsMin 100 (g.world.playerVitals.detection + DETECTION_INCREMENT)))
        "detection:increased")
      npc
  else (g, npc, false)

/-- Replace the NPC list. -/
def setNpcs (g : Game) (l : List NPCState) : Game := { g with npcs := l }

/-- The next `Math.random()*100` outcome: one entry of the supplied roll list;
an exhausted list stands for rolls of 100, which never detect (every chance is
at most 48). -/
def nextRoll : List ℚ → ℚ × List ℚ
  | [] => (100, [])
  | r :: rs => (r, rs)

/-- The NPC loop of `checkNPCDetection` (src/unnamed/part_006:1361): skip NPCs
outside the current room, those whose engine `state` is
unconscious or subdued, and those already engaged; roll for each remaining
NPC; a mission-failure `return` aborts the loop leaving the remaining NPCs
untouched. -/
def detectLoop (env : EnvRec) : List NPCState → List ℚ → Game → List NPCState → Game
  | [], _, g, acc => setNpcs g acc
  | npc :: rest, rolls, g, acc =>
    if (npc.location ≠ g.world.currentEnvironment) ∨ npc.jsState = some "unconscious" ∨
        npc.jsState = some "subdued" ∨ npc.engaged = true then
      detectLoop env rest rolls g (acc ++ [npc])
    else
      match detectOne g env npc (nextRoll rolls).1 with
      | (g2, npc2, abort) =>
        if abort then setNpcs g2 (acc ++ [npc2] ++ rest)
        else detectLoop env rest (nextRoll rolls).2 g2 (acc ++ [npc2])

/-- `GlassShadow.checkNPCDetection` (src/unnamed/part_006:1355): resolve the
current environment (absent: no-op), then run the detection roll over the NPC
list; `rolls` supplies the `Math.random()*100` outcomes in order. -/
def checkNPCDetection (g : Game) (rolls : List ℚ) : Game :=
  match envLookup g.environments g.world.currentEnvironment with
  | none => g
  | some env => detectLoop env g.npcs rolls g []

/-- The NPC tick sweep of `GlassShadow.update` (src/unnamed/part_006:1327). -/
def tickNPCs (g : Game) : Game := { g with npcs := g.npcs.map npcTick }

/-- `GlassShadow.update` (src/unnamed/part_006:1306): when the gate passes,
stamp `lastDetectionCheck` and run the detection check; then tick every NPC,
and check the win/lose conditions.  The advisor ticks, display transition
update and priority re-evaluation mutate no state modelled here (priority
evaluation is the pure `evaluate`, its result emitted to the UI). -/
def update (g : Game) (now : ℤ) (rolls : List ℚ) : Game :=
  checkWinLoseConditions (tickNPCs
    (if canCheckDetection g now then
      checkNPCDetection { g with lastDetectionCheck := now } rolls
    else g))

/-- The grace-period `setTimeout` callbacks scheduled by `enterRoom` firing:
every due callback runs before the frame's `update` body (the JS event loop
runs due timer callbacks between animation frames), and each one
unconditionally sets `detectionEnabled = true` (src/unnamed/part_006:702) —
including a stale callback scheduled by an earlier room entry, since the
source never cancels a timer. -/
def fireDetectionTimer (g : Game) (now : ℤ) : Game :=
  if g.pendingDetectionTimers.any (fun d => decide (d ≤ now)) then
    { g with detectionEnabled := true,
             pendingDetectionTimers := g.pendingDetectionTimers.filter (fun d => decide (now < d)) }
  else g

/-- One animation frame at time `now`: due timers fire, then `update` runs. -/
def frame (g : Game) (now : ℤ) (rolls : List ℚ) : Game :=
  update (fireDetectionTimer g now) now rolls

/-- A sequence of animation frames, each a (timestamp, rolls) pair. -/
def runFrames (g : Game) : List (ℤ × List ℚ) → Game
  | [] => g
  | f :: fs => runFrames (frame g f.1 f.2) fs

/-- Room-change statement of `GlassShadow.enterRoom`
(src/unnamed/part_006:684). -/
def setCurrentRoom (g : Game) (roomId : String) : Game :=
  { g with world := { g.world with currentEnvironment := roomId } }

/-- Detection-grace reset of `enterRoom` (src/unnamed/part_006:690-705):
disable detection, stamp the entry time, and schedule one more enabling
timeout — the `setTimeout` at line 702 is never paired with a `clearTimeout`,
so any timeout scheduled by a previous entry remains pending alongside the
new one. -/
def scheduleDetection (g : Game) (now : ℤ) : Game :=
  { g with detectionEnabled := false, roomEntryTime := now,
           pendingDetectionTimers := g.pendingDetectionTimers ++ [now + DETECTION_GRACE_PERIOD] }

/-- Per-room sticky-flag reset of `enterRoom` (src/unnamed/part_006:694). -/
def resetRoomFlags (g : Game) (roomId : String) : Game :=
  { g with npcs := g.npcs.map (fun npc =>
      if npc.location = roomId then { npc with alreadySpotted := false, engagementHandled := false }
      else npc) }

/-- Event emissions of `enterRoom` (src/unnamed/part_006:712-726): two
`room:entered` events, plus `objective:near` when the room holds an objective
element. -/
def emitRoomEvents (g : Game) (env : EnvRec) : Game :=
  if env.elements.any (fun el => el.isObjective) then
    addEvent (addEvent (addEvent g "room:entered") "room:entered") "objective:near"
  else addEvent (addEvent g "room:entered") "room:entered"

/-- `GlassShadow.enterRoom` (src/unnamed/part_006:677): a missing room is a
logged no-op; otherwise set the current room, reset the detection grace state
and per-room NPC flags, and emit the room events (the map-renderer marking and
Sloan trigger hold no modelled state). -/
def enterRoom (g : Game) (roomId : String) (now : ℤ) : Game :=
  match envLookup g.environments roomId with
  | none => g
  | some env =>
    emitRoomEvents (resetRoomFlags (scheduleDetection (setCurrentRoom g roomId) now) roomId) env

/-- Player vitals with moderate stress for the action-execution scenarios. -/
def pvDialogueW : PlayerVitalsRec := { health := 100, stamina := 80, stress := 50, detection := 10 }

/-- World slice for the action-execution scenarios. -/
def worldDialogueW : WorldState :=
  { currentEnvironment := "server-room", playerVitals := pvDialogueW, playerConditions := [],
    equipment := [], objectives := [] }

/-- A running game paused in dialogue mode. -/
def gDialogueW : Game :=
  { world := worldDialogueW, npcs := [], environments := [],
    modeMgr := { mmFresh with currentMode := Mode.dialogue }, flags := [], sloanConnection := 50,
    speeches := [], busEvents := [], errors := [], animationOn := true, handlerCalls := [],
    detectionEnabled := true, roomEntryTime := 0, lastDetectionCheck := 0,
    pendingDetectionTimers := [] }

/-- Helper: the `wait` branch of the dispatch. -/
theorem executeAction_wait (g : Game) :
    executeAction g "wait" = addHandlerCall (waitAction g) "waitAction" := rfl

/-- Helper: the stress outcome of the `wait` handler's vitals change. -/
theorem updateVitals_wait_stress (g : Game) :
    (updateVitals g [("stress", -10), ("stamina", 5)]).world.playerVitals.stress
      = jsMax 0 (jsMin 100 (g.world.playerVitals.stress + (-10))) := rfl

/-- C3 counterexample: in dialogue mode — whose whitelist is
`['talk', 'persuade', 'intimidate', 'distract', 'flee']` — the verb `wait` is
not allowed, yet `executeAction` dispatches `waitAction`, which mutates the
player's vitals (stress 50 to 40): the verb is never validated against the
mode's whitelist, no rejection is produced, and state changes. -/
theorem executeAction_ignores_whitelist_cx :
    isActionAllowed gDialogueW.modeMgr "wait" = false ∧
    gDialogueW.world.playerVitals.stress = 50 ∧
    (executeAction gDialogueW "wait").world.playerVitals.stress = 40 ∧
    (executeAction gDialogueW "wait").handlerCalls = ["waitAction"] := by
  refine ⟨by decide, rfl, ?_, rfl⟩
  calc (executeAction gDialogueW "wait").world.playerVitals.stress
      = (updateVitals gDialogueW [("stress", -10), ("stamina", 5)]).world.playerVitals.stress := rfl
    _ = jsMax 0 (jsMin 100 (gDialogueW.world.playerVitals.stress + (-10))) :=
        updateVitals_wait_stress gDialogueW
    _ = 40 := by norm_num [jsMax, jsMin, gDialogueW, worldDialogueW, pvDialogueW]

/-- C3 amended: the action-execution entry point performs no whitelist
validation.  `executeAction` dispatches purely on the verb, in every game
state and every mode: the `wait` branch always runs `waitAction` and mutates
the stress vital, although `wait` is allowed by no mode's whitelist
(`ModeManager.isActionAllowed` returns false for it in every mode and is
never invoked by `executeAction`); only verbs outside the switch are
no-ops. -/
theorem executeAction_no_whitelist_amended :
    (∀ g : Game, executeAction g "wait" = addHandlerCall (waitAction g) "waitAction") ∧
    (∀ g : Game, (executeAction g "wait").world.playerVitals.stress
        = jsMax 0 (jsMin 100 (g.world.playerVitals.stress + (-10)))) ∧
    (∀ mm : ModeManagerState, isActionAllowed mm "wait" = false) ∧
    (∀ (g : Game) (verb : String),
        verb ∉ ["move", "sneak", "examine", "take", "use", "hack", "talk", "look", "listen",
                "wait", "contact-mack", "contact-sloan", "subdue", "flee", "attack"] →
        executeAction g verb = g) := by
  refine ⟨fun g => rfl, fun g => ?_, fun mm => ?_, fun g verb h => ?_⟩
  · exact updateVitals_wait_stress g
  · obtain ⟨cm, pm, ms, tl, ev⟩ := mm
    unfold isActionAllowed
    cases cm <;> rfl
  · simp only [List.mem_cons, List.not_mem_nil, or_false, not_or] at h
    obtain ⟨h1, h2, h3, h4, h5, h6, h7, h8, h9, h10, h11, h12, h13, h14, h15⟩ := h
    simp [executeAction, h1, h2, h3, h4, h5, h6, h7, h8, h9, h10, h11, h12, h13, h14, h15]

/-- Witness for the amended C3 theorem: the dialogue-mode game runs `wait`
through `waitAction`, the fresh manager rejects `wait` from its whitelist, and
the unknown verb `dance` is a no-op. -/
theorem executeAction_no_whitelist_amended_witness :
    executeAction gDialogueW "wait" = addHandlerCall (waitAction gDialogueW) "waitAction" ∧
    isActionAllowed mmFresh "wait" = false ∧
    executeAction gDialogueW "dance" = gDialogueW :=
  ⟨executeAction_no_whitelist_amended.1 gDialogueW,
   executeAction_no_whitelist_amended.2.2.1 mmFresh,
   executeAction_no_whitelist_amended.2.2.2 gDialogueW "dance" (by decide)⟩

/-- Helper: reading a key just written by `Map.set`. -/
theorem mapGet_mapSet_self (m : List (String × Bool)) (k : String) (v : Bool) :
    mapGet (mapSet m k v) k = some v := by
  induction m with
  | nil => simp [mapSet, mapGet]
  | cons e es ih =>
    unfold mapSet
    by_cases he : e.1 = k
    · simp [he, mapGet]
    · simp [he, mapGet, ih]

/-- Helper: `handleGameOver` leaves the `game_over` flag set. -/
theorem hasFlag_handleGameOver (g : Game) (r : String) :
    hasFlag (handleGameOver g r) "game_over" = true := by
  unfold handleGameOver
  cases h : hasFlag g "game_over" with
  | true => simp [h]
  | false =>
    simp only [h, Bool.false_eq_true, if_false]
    simp [hasFlag, addError, stopGame, addSpeech, setFlag, mapGet_mapSet_self]

/-- Helper: `handleMissionComplete` leaves the `mission_complete` flag set. -/
theorem hasFlag_handleMissionComplete (g : Game) :
    hasFlag (handleMissionComplete g) "mission_complete" = true := by
  unfold handleMissionComplete
  cases h : hasFlag g "mission_complete" with
  | true => simp [h]
  | false =>
    simp only [h, Bool.false_eq_true, if_false]
    simp [hasFlag, addError, stopGame, addSpeech, setFlag, mapGet_mapSet_self]

/-- Helper: a set `game_over` flag makes `handleGameOver` the identity. -/
theorem handleGameOver_of_flag (g : Game) (r : String) (h : hasFlag g "game_over" = true) :
    handleGameOver g r = g := by
  unfold handleGameOver
  rw [if_pos h]

/-- Helper: a set `mission_complete` flag makes `handleMissionComplete` the
identity. -/
theorem handleMissionComplete_of_flag (g : Game) (h : hasFlag g "mission_complete" = true) :
    handleMissionComplete g = g := by
  unfold handleMissionComplete
  rw [if_pos h]

/-- Helper: either terminal flag makes `checkWinLoseConditions` the
identity. -/
theorem checkWinLose_early (g : Game)
    (h : hasFlag g "game_over" = true ∨ hasFlag g "mission_complete" = true) :
    checkWinLoseConditions g = g := by
  unfold checkWinLoseConditions
  rcases h with h | h <;> simp [h]

/-- Helper: `checkWinLoseConditions` either changes nothing or ends in a state
with a terminal flag set. -/
theorem checkWinLose_cases (g : Game) :
    checkWinLoseConditions g = g ∨
    hasFlag (checkWinLoseConditions g) "game_over" = true ∨
    hasFlag (checkWinLoseConditions g) "mission_complete" = true := by
  unfold checkWinLoseConditions
  split
  · left; rfl
  · split
    · right; left; exact hasFlag_handleGameOver _ _
    · split
      · right; left; exact hasFlag_handleGameOver _ _
      · split
        · split
          · split
            · right; right; exact hasFlag_handleMissionComplete _
            · left; rfl
          · left; rfl
        · left; rfl

/-- C8: the terminal handlers are one-shot and idempotent — a second
`handleGameOver` (with any reason) or `handleMissionComplete`, and a second
`checkWinLoseConditions`, change nothing; and from a state without the flag,
one invocation produces exactly one failure (resp. success) notification,
halts the loop once, and leaves the flag set so every later invocation is a
no-op. -/
theorem terminal_states_idempotent :
    (∀ (g : Game) (r r2 : String), handleGameOver (handleGameOver g r) r2 = handleGameOver g r) ∧
    (∀ g : Game, handleMissionComplete (handleMissionComplete g) = handleMissionComplete g) ∧
    (∀ g : Game, checkWinLoseConditions (checkWinLoseConditions g) = checkWinLoseConditions g) ∧
    (∀ (g : Game) (r : String), hasFlag g "game_over" = false →
        (handleGameOver g r).speeches = g.speeches ++ [GAME_OVER_SPEECH] ∧
        (handleGameOver g r).animationOn = false ∧
        hasFlag (handleGameOver g r) "game_over" = true) ∧
    (∀ g : Game, hasFlag g "mission_complete" = false →
        (handleMissionComplete g).speeches = g.speeches ++ [MISSION_COMPLETE_SPEECH] ∧
        (handleMissionComplete g).animationOn = false ∧
        hasFlag (handleMissionComplete g) "mission_complete" = true) := by
  refine ⟨fun g r r2 => handleGameOver_of_flag _ r2 (hasFlag_handleGameOver g r),
          fun g => handleMissionComplete_of_flag _ (hasFlag_handleMissionComplete g),
          fun g => ?_, fun g r h => ?_, fun g h => ?_⟩
  · rcases checkWinLose_cases g with h | h | h
    · rw [h]
      exact h
    · exact checkWinLose_early _ (Or.inl h)
    · exact checkWinLose_early _ (Or.inr h)
  · refine ⟨?_, ?_, hasFlag_handleGameOver g r⟩ <;>
      simp [handleGameOver, h, addError, stopGame, addSpeech, setFlag]
  · refine ⟨?_, ?_, hasFlag_handleMissionComplete g⟩ <;>
      simp [handleMissionComplete, h, addError, stopGame, addSpeech, setFlag]

/-- A freshly started game with no story flags. -/
def gFresh : Game :=
  { world := worldDialogueW, npcs := [], environments := [], modeMgr := mmFresh, flags := [],
    sloanConnection := 100, speeches := [], busEvents := [], errors := [], animationOn := true,
    handlerCalls := [], detectionEnabled := false, roomEntryTime := 0, lastDetectionCheck := 0,
    pendingDetectionTimers := [] }

/-- Witness for C8 on the fresh game: a second game-over invocation is a
no-op, and the first produced exactly one failure line, halted the loop, and
set the flag. -/
theorem terminal_states_idempotent_witness :
    handleGameOver (handleGameOver gFresh "You were killed.") "You were killed."
      = handleGameOver gFresh "You were killed." ∧
    ((handleGameOver gFresh "You were killed.").speeches = gFresh.speeches ++ [GAME_OVER_SPEECH] ∧
     (handleGameOver gFresh "You were killed.").animationOn = false ∧
     hasFlag (handleGameOver gFresh "You were killed.") "game_over" = true) :=
  ⟨terminal_states_idempotent.1 gFresh "You were killed." "You were killed.",
   terminal_states_idempotent.2.2.2.1 gFresh "You were killed." rfl⟩

/-- An office room with plain attributes and no elements. -/
def envPlainW : EnvRec :=
  { id := "office-17", lighting := "normal", noise := "normal", exits := [], elements := [] }

/-- An unaware worker NPC in the office. -/
def npcWorkerW : NPCState :=
  { id := "worker-1", type := "worker", location := "office-17",
    vitals := { vitalsDefault with awareness := Awareness.unaware, suspicion := 0, alertCooldown := 0 },
    awareness := Awareness.unaware, engaged := false, dialogueId := none, behavior := "worker",
    actionCooldown := 0, jsState := none, engagementHandled := false, alreadySpotted := false }

/-- World slice for the detection scenarios: player at rest in the office. -/
def worldOfficeW : WorldState :=
  { currentEnvironment := "office-17", playerVitals := pvRest, playerConditions := [],
    equipment := [], objectives := [] }

/-- The engine state of the office scenario, parametric in the loaded room
table and in every field the detection pass does not read. -/
def gOffice (envs : List (String × EnvRec)) (mm : ModeManagerState) (fl : List (String × Bool))
    (sq : ℚ) (sp be er hc : List String) (an de : Bool) (rt lc : ℤ) (pd : List ℤ) : Game :=
  { world := worldOfficeW, npcs := [npcWorkerW], environments := envs,
    modeMgr := mm, flags := fl, sloanConnection := sq, speeches := sp, busEvents := be,
    errors := er, animationOn := an, handlerCalls := hc, detectionEnabled := de,
    roomEntryTime := rt, lastDetectionCheck := lc, pendingDetectionTimers := pd }

/-- Helper: in the office scenario — player at rest, one unaware worker NPC,
plain room — a detection pass with a roll of 0 raises the player's detection
from 0 to 5, whatever the engine-side mode, flag, log and timer fields hold
and whatever else the room table contains, as long as it resolves
`office-17` to the plain office. -/
theorem checkNPC_office_detect (envs : List (String × EnvRec)) (mm : ModeManagerState)
    (fl : List (String × Bool)) (sq : ℚ) (sp be er hc : List String) (an de : Bool)
    (rt lc : ℤ) (pd : List ℤ) (henv : envLookup envs "office-17" = some envPlainW) :
    (checkNPCDetection (gOffice envs mm fl sq sp be er hc an de rt lc pd)
      [0]).world.playerVitals.detection = 5 := by
  have ea : (Awareness.unaware = Awareness.alert) = False := eq_false (by decide)
  have eh : (Awareness.unaware = Awareness.hostile) = False := eq_false (by decide)
  have s1 : ("normal" = "bright") = False := eq_false (by decide)
  have s2 : ("normal" = "dim") = False := eq_false (by decide)
  have s3 : ("normal" = "loud") = False := eq_false (by decide)
  have s4 : ("normal" = "silent") = False := eq_false (by decide)
  have hchance : detectChance (gOffice envs mm fl sq sp be er hc an de rt lc pd) envPlainW
      npcWorkerW = 8 := by
    norm_num [detectChance, gOffice, worldOfficeW, pvRest, npcWorkerW, envPlainW,
      DETECTION_BASE_CHANCE, vitalsDefault, ea, eh, s1, s2, s3, s4]
  have hd5 : jsMin 100
      ((gOffice envs mm fl sq sp be er hc an de rt lc pd).world.playerVitals.detection
      + DETECTION_INCREMENT) = 5 := by
    norm_num [jsMin, gOffice, worldOfficeW, pvRest, DETECTION_INCREMENT]
  have hdp : (addEvent (setPlayerDetection (gOffice envs mm fl sq sp be er hc an de rt lc pd) 5)
      "detection:increased").world.playerVitals.detection = 5 := rfl
  have hone : detectOne (gOffice envs mm fl sq sp be er hc an de rt lc pd) envPlainW npcWorkerW 0
      = (addEvent (setPlayerDetection (gOffice envs mm fl sq sp be er hc an de rt lc pd) 5)
          "detection:increased", npcWorkerW, false) := by
    unfold detectOne
    rw [if_pos (by rw [hchance]; norm_num)]
    rw [hd5]
    unfold detectThresholds
    rw [hdp]
    have e30 : ((30 : ℚ) ≤ 5) = False := eq_false (by norm_num)
    have e50 : ((50 : ℚ) ≤ 5) = False := eq_false (by norm_num)
    have e80 : ((80 : ℚ) ≤ 5) = False := eq_false (by norm_num)
    have e100 : ((100 : ℚ) ≤ 5) = False := eq_false (by norm_num)
    simp only [e30, e50, e80, e100, false_and, if_false]
  have hguard : ¬ ((npcWorkerW.location ≠
        (gOffice envs mm fl sq sp be er hc an de rt lc pd).world.currentEnvironment) ∨
      npcWorkerW.jsState = some "unconscious" ∨ npcWorkerW.jsState = some "subdued" ∨
      npcWorkerW.engaged = true) := by
    have henv2 : (gOffice envs mm fl sq sp be er hc an de rt lc pd).world.currentEnvironment
        = "office-17" := rfl
    rw [henv2]
    decide
  have hloop : checkNPCDetection (gOffice envs mm fl sq sp be er hc an de rt lc pd) [0]
      = setNpcs (addEvent (setPlayerDetection (gOffice envs mm fl sq sp be er hc an de rt lc pd) 5)
          "detection:increased") [npcWorkerW] := by
    have hstep : checkNPCDetection (gOffice envs mm fl sq sp be er hc an de rt lc pd) [0]
        = detectLoop envPlainW [npcWorkerW] [0]
            (gOffice envs mm fl sq sp be er hc an de rt lc pd) [] := by
      unfold checkNPCDetection
      rw [show (gOffice envs mm fl sq sp be er hc an de rt lc pd).environments = envs from rfl,
        show (gOffice envs mm fl sq sp be er hc an de rt lc pd).world.currentEnvironment
          = "office-17" from rfl, henv]
      rfl
    rw [hstep]
    unfold detectLoop
    rw [if_neg hguard]
    rw [show (nextRoll [(0 : ℚ)]).1 = 0 from rfl, show (nextRoll [(0 : ℚ)]).2 = [] from rfl, hone]
    rfl
  rw [hloop]
  exact hdp

/-- Helper: `handleGameOver` never touches the world slice or the detection
gate state. -/
theorem handleGameOver_frame (g : Game) (r : String) :
    (handleGameOver g r).world = g.world ∧
    (handleGameOver g r).detectionEnabled = g.detectionEnabled ∧
    (handleGameOver g r).pendingDetectionTimers = g.pendingDetectionTimers := by
  unfold handleGameOver
  split <;> exact ⟨rfl, rfl, rfl⟩

/-- Helper: `handleMissionComplete` never touches the world slice or the
detection gate state. -/
theorem handleMissionComplete_frame (g : Game) :
    (handleMissionComplete g).world = g.world ∧
    (handleMissionComplete g).detectionEnabled = g.detectionEnabled ∧
    (handleMissionComplete g).pendingDetectionTimers = g.pendingDetectionTimers := by
  unfold handleMissionComplete
  split <;> exact ⟨rfl, rfl, rfl⟩

/-- Helper: the win/lose check never touches the player's vitals or the
detection gate state (it only sets flags, logs, the loop handle, and the
completed objective). -/
theorem checkWinLose_frame (g : Game) :
    (checkWinLoseConditions g).world.playerVitals = g.world.playerVitals ∧
    (checkWinLoseConditions g).detectionEnabled = g.detectionEnabled ∧
    (checkWinLoseConditions g).pendingDetectionTimers = g.pendingDetectionTimers := by
  unfold checkWinLoseConditions
  split
  · exact ⟨rfl, rfl, rfl⟩
  · split
    · obtain ⟨h1, h2, h3⟩ := handleGameOver_frame g "You were killed."
      exact ⟨by rw [h1], h2, h3⟩
    · split
      · obtain ⟨h1, h2, h3⟩ :=
          handleGameOver_frame g "The alarm was triggered. Evidence will be destroyed."
        exact ⟨by rw [h1], h2, h3⟩
      · split
        · split
          · split
            · obtain ⟨h1, h2, h3⟩ := handleMissionComplete_frame
                (withObjectives g (markObjectiveComplete g.world.objectives "obj-extract-exit"))
              exact ⟨by rw [h1]; rfl, h2, h3⟩
            · exact ⟨rfl, rfl, rfl⟩
          · exact ⟨rfl, rfl, rfl⟩
        · exact ⟨rfl, rfl, rfl⟩

/-- A combat-mode office game with detection enabled and the throttle long
elapsed. -/
def gCombat : Game :=
  gOffice [("office-17", envPlainW)] { mmFresh with currentMode := Mode.combat }
    [] 100 [] [] [] [] true true 0 0 []

/-- C2 (code defect): the combat/dialogue suppression of the detection gate
can never trigger — `getCurrentMode()` returns the mode-configuration object
and `['combat', 'dialogue'].includes(value)` compares it against strings,
which fails for every mode manager state — so in combat mode, with detection
enabled and the throttle elapsed, the gate passes, the ambient check runs,
and a successful roll increments the player's detection from 0 to 5, contrary
to the claim and to the comment above the gate in the source. -/
theorem combat_mode_detection_not_suppressed_bug :
    (∀ mm : ModeManagerState, jsIncludes ["combat", "dialogue"] (getCurrentModeJs mm) = false) ∧
    gCombat.modeMgr.currentMode = Mode.combat ∧
    canCheckDetection gCombat 10000 = true ∧
    gCombat.world.playerVitals.detection = 0 ∧
    (update gCombat 10000 [0]).world.playerVitals.detection = 5 := by
  have hgate : canCheckDetection gCombat 10000 = true := by decide
  refine ⟨fun mm => rfl, rfl, hgate, rfl, ?_⟩
  have hupd : update gCombat 10000 [0]
      = checkWinLoseConditions (tickNPCs (checkNPCDetection
          { gCombat with lastDetectionCheck := 10000 } [0])) := by
    unfold update
    rw [if_pos hgate]
  rw [hupd]
  obtain ⟨c1, _, _⟩ := checkWinLose_frame
    (tickNPCs (checkNPCDetection { gCombat with lastDetectionCheck := 10000 } [0]))
  rw [c1]
  have t1 : (tickNPCs (checkNPCDetection { gCombat with lastDetectionCheck := 10000 } [0])).world
      = (checkNPCDetection { gCombat with lastDetectionCheck := 10000 } [0]).world := rfl
  rw [t1]
  exact checkNPC_office_detect [("office-17", envPlainW)]
    { mmFresh with currentMode := Mode.combat } [] 100 [] [] [] [] true true 0 10000 [] rfl

/-- Helper: a frame at a time when no live grace timer is yet due leaves the
player's detection, the disabled gate and the timer list untouched. -/
theorem frame_no_detect (g : Game) (t : ℤ) (rolls : List ℚ)
    (hd : g.detectionEnabled = false)
    (hp : g.pendingDetectionTimers.any (fun d => decide (d ≤ t)) = false) :
    (frame g t rolls).world.playerVitals.detection = g.world.playerVitals.detection ∧
    (frame g t rolls).detectionEnabled = false ∧
    (frame g t rolls).pendingDetectionTimers = g.pendingDetectionTimers := by
  have htimer : fireDetectionTimer g t = g := by
    unfold fireDetectionTimer
    rw [hp]
    rw [if_neg (by decide)]
  have hgate : ¬ (canCheckDetection g t = true) := by
    unfold canCheckDetection
    rw [hd]
    simp
  have hupd : frame g t rolls = checkWinLoseConditions (tickNPCs g) := by
    unfold frame
    rw [htimer]
    unfold update
    rw [if_neg hgate]
  obtain ⟨c1, c2, c3⟩ := checkWinLose_frame (tickNPCs g)
  rw [hupd]
  exact ⟨by rw [c1]; rfl, by rw [c2]; exact hd, by rw [c3]; rfl⟩

/-- Helper: a run of frames all strictly earlier than every live grace timer
deadline leaves the player's detection untouched. -/
theorem runFrames_no_detect (ds : List ℤ) :
    ∀ (fs : List (ℤ × List ℚ)) (g : Game),
      g.detectionEnabled = false → g.pendingDetectionTimers = ds →
      (∀ f ∈ fs, ds.any (fun d => decide (d ≤ f.1)) = false) →
      (runFrames g fs).world.playerVitals.detection = g.world.playerVitals.detection := by
  intro fs
  induction fs with
  | nil =>
    intro g _ _ _
    rfl
  | cons f fs ih =>
    intro g hd hp hts
    have hp1 : g.pendingDetectionTimers.any (fun d => decide (d ≤ f.1)) = false := by
      rw [hp]
      exact hts f (List.mem_cons_self f fs)
    obtain ⟨h1, h2, h3⟩ := frame_no_detect g f.1 f.2 hd hp1
    have hstep : runFrames g (f :: fs) = runFrames (frame g f.1 f.2) fs := rfl
    rw [hstep, ih (frame g f.1 f.2) h2 (by rw [h3]; exact hp)
      (fun f2 hf2 => hts f2 (List.mem_cons_of_mem f hf2)), h1]

/-- Helper: a found `enterRoom` disables detection and appends one more enable
timeout at entry time plus the grace period — leaving every earlier scheduled
timeout live, since the source has no `clearTimeout`. -/
theorem enterRoom_sets (g : Game) (roomId : String) (now : ℤ) (env : EnvRec)
    (h : envLookup g.environments roomId = some env) :
    (enterRoom g roomId now).detectionEnabled = false ∧
    (enterRoom g roomId now).pendingDetectionTimers
      = g.pendingDetectionTimers ++ [now + DETECTION_GRACE_PERIOD] := by
  have hred : enterRoom g roomId now
      = emitRoomEvents (resetRoomFlags (scheduleDetection (setCurrentRoom g roomId) now) roomId)
          env := by
    unfold enterRoom
    rw [h]
  rw [hred]
  unfold emitRoomEvents
  split
  · exact ⟨rfl, rfl⟩
  · exact ⟨rfl, rfl⟩

/-- An exploration-mode office game about to change rooms, with no timer
pending. -/
def gGrace : Game := gOffice [("office-17", envPlainW)] mmFresh [] 100 [] [] [] [] true false 0 0 []

/-- A plain hallway adjoining the office. -/
def envHallW : EnvRec :=
  { id := "hallway-2", lighting := "normal", noise := "normal", exits := [], elements := [] }

/-- The two-room table for the stale-timer scenario. -/
def envsTwoW : List (String × EnvRec) := [("hallway-2", envHallW), ("office-17", envPlainW)]

/-- A running game in the two-room wing, detection live, before any
transition. -/
def gWing : Game := gOffice envsTwoW mmFresh [] 100 [] [] [] [] true true 0 0 []

/-- The state after two quick moves: into the hallway at 0 ms, then into the
office at 2000 ms — while the hallway's grace timer is still pending. -/
def gStale : Game := enterRoom (enterRoom gWing "hallway-2" 0) "office-17" 2000

/-- The bus-event log after the two room entries. -/
def beFourW : List String := ["room:entered", "room:entered", "room:entered", "room:entered"]

/-- C5 (code defect): a single transition's grace window does hold — with no
timer already pending, every frame before entry time plus 3000 ms leaves the
player's detection exactly unchanged — but `enterRoom` schedules its
grace-expiry `setTimeout` without ever cancelling the previous one (no
`clearTimeout` occurs in the source), so a second transition inside the
window leaves the first room's timer live: it fires mid-window and re-enables
detection, and the ambient check then increments detection inside the new
room's grace window.  Entering the hallway at 0 ms and the office at 2000 ms
leaves both timers (3000 and 5000) pending with detection disabled; the stale
3000 ms timer then lets a frame at 3500 ms raise detection from 0 to 5, even
though 3500 < 2000 + 3000. -/
theorem grace_period_stale_timer_bug :
    (∀ (g : Game) (roomId : String) (now : ℤ) (env : EnvRec) (fs : List (ℤ × List ℚ)),
        envLookup g.environments roomId = some env →
        g.pendingDetectionTimers = [] →
        (∀ f ∈ fs, f.1 < now + DETECTION_GRACE_PERIOD) →
        (runFrames (enterRoom g roomId now) fs).world.playerVitals.detection
          = (enterRoom g roomId now).world.playerVitals.detection) ∧
    (gStale.pendingDetectionTimers = [3000, 5000] ∧
      gStale.detectionEnabled = false ∧
      gStale.world.playerVitals.detection = 0 ∧
      (3500 : ℤ) < 2000 + DETECTION_GRACE_PERIOD ∧
      (frame gStale 3500 [0]).world.playerVitals.detection = 5) := by
  constructor
  · intro g roomId now env fs hfound hnil hts
    obtain ⟨hde, hpd⟩ := enterRoom_sets g roomId now env hfound
    refine runFrames_no_detect [now + DETECTION_GRACE_PERIOD] fs (enterRoom g roomId now) hde
      (by simp [hpd, hnil]) ?_
    intro f hf
    have hlt := hts f hf
    have hnle : ¬ ((now + DETECTION_GRACE_PERIOD : ℤ) ≤ f.1) := by omega
    simp [hnle]
  · refine ⟨by decide, rfl, rfl, by decide, ?_⟩
    have htimer : fireDetectionTimer gStale 3500
        = gOffice envsTwoW mmFresh [] 100 [] beFourW [] [] true true 2000 0 [5000] := by decide
    have hgate2 : canCheckDetection
        (gOffice envsTwoW mmFresh [] 100 [] beFourW [] [] true true 2000 0 [5000]) 3500
        = true := by decide
    have hfr : frame gStale 3500 [0]
        = checkWinLoseConditions (tickNPCs (checkNPCDetection
            { gOffice envsTwoW mmFresh [] 100 [] beFourW [] [] true true 2000 0 [5000]
              with lastDetectionCheck := 3500 } [0])) := by
      unfold frame
      rw [htimer]
      unfold update
      rw [if_pos hgate2]
    rw [hfr]
    obtain ⟨c1, _, _⟩ := checkWinLose_frame (tickNPCs (checkNPCDetection
      { gOffice envsTwoW mmFresh [] 100 [] beFourW [] [] true true 2000 0 [5000]
        with lastDetectionCheck := 3500 } [0]))
    rw [c1]
    have t1 : (tickNPCs (checkNPCDetection
        { gOffice envsTwoW mmFresh [] 100 [] beFourW [] [] true true 2000 0 [5000]
          with lastDetectionCheck := 3500 } [0])).world
      = (checkNPCDetection
          { gOffice envsTwoW mmFresh [] 100 [] beFourW [] [] true true 2000 0 [5000]
            with lastDetectionCheck := 3500 } [0]).world := rfl
    rw [t1]
    exact checkNPC_office_detect envsTwoW mmFresh [] 100 [] beFourW [] [] true true 2000 3500
      [5000] rfl

/-- Witness for C5's universal clause: with no stale timer pending, two frames
at 1000 ms and 2999 ms after entering the office at 0 ms leave detection
unchanged. -/
theorem grace_period_stale_timer_bug_witness :
    (runFrames (enterRoom gGrace "office-17" 0)
        [((1000 : ℤ), [0]), ((2999 : ℤ), [0])]).world.playerVitals.detection
      = (enterRoom gGrace "office-17" 0).world.playerVitals.detection :=
  grace_period_stale_timer_bug.1 gGrace "office-17" 0 envPlainW
    [((1000 : ℤ), [0]), ((2999 : ℤ), [0])] rfl rfl (by decide)
